import Mathlib

/-!
Verification of the cryptographic core of the mit-dci/dlc-oracle-go repository
(package `dlcoracle`): Schnorr-style DLC oracle signatures over secp256k1.

The Go source (`ComputeSignature`, `ComputeSignaturePubKey`,
`PublicKeyFromPrivateKey`, `GenerateNumericMessage`) is shallowly embedded
below.  Byte strings are `List Nat` (each entry a byte value), big.Int values
are `Nat` (or `Int` where Go arithmetic is signed), and the btcec curve
operations are embedded at the level of the arithmetic they implement:
affine secp256k1 point arithmetic over the prime field, with `none` playing
the role of the point at infinity (which btcec materialises as the affine
pair (0, 0) when converting out of Jacobian coordinates).

The executable definitions are bridged to Mathlib's `WeierstrassCurve.Affine.Point`
group to obtain the group-law facts (linearity of scalar multiplication,
order of the base point) that the repository's equivalence law rests on.
-/

set_option maxRecDepth 100000
set_option maxHeartbeats 16000000
set_option linter.constructorNameAsVariable false

namespace DLCOracle

/-! ### Fuel-based modular exponentiation (used for field inversion and
square roots, and for the primality certificates) -/

/-- Square-and-multiply modular exponentiation, structurally recursive on a
fuel argument so that the kernel can evaluate it on 256-bit literals. -/
def powM : Nat → Nat → Nat → Nat → Nat
  | 0, _, _, m => 1 % m
  | fuel+1, b, e, m =>
    if e = 0 then 1 % m
    else
      let r := powM fuel (b * b % m) (e / 2) m
      if e % 2 = 1 then b * r % m else r

theorem powM_lt (fuel b e m : Nat) (hm : 0 < m) : powM fuel b e m < m := by
  induction fuel generalizing b e with
  | zero => exact Nat.mod_lt _ hm
  | succ fuel ih =>
    simp only [powM]
    split
    · exact Nat.mod_lt _ hm
    · split
      · exact Nat.mod_lt _ hm
      · exact ih _ _

theorem powM_cast {m : Nat} (fuel b e : Nat) (he : e < 2 ^ fuel) :
    ((powM fuel b e m : Nat) : ZMod m) = (b : ZMod m) ^ e := by
  induction fuel generalizing b e with
  | zero =>
    interval_cases e
    simp [powM, ZMod.natCast_mod]
  | succ fuel ih =>
    simp only [powM]
    by_cases h0 : e = 0
    · simp [h0, ZMod.natCast_mod]
    · simp only [if_neg h0]
      have he2 : e / 2 < 2 ^ fuel := by
        have : e < 2 ^ fuel * 2 := by rw [pow_succ] at he; exact he
        omega
      have hr := ih (b * b % m) (e / 2) he2
      have hbb : ((b * b % m : Nat) : ZMod m) = (b : ZMod m) * b := by
        rw [ZMod.natCast_mod]; push_cast; ring
      rw [hbb] at hr
      have hsplit : 2 * (e / 2) + e % 2 = e := Nat.div_add_mod e 2
      by_cases hodd : e % 2 = 1
      · simp only [if_pos hodd]
        rw [ZMod.natCast_mod]
        push_cast
        rw [hr, ← sq, ← pow_mul]
        rw [show (b : ZMod m) * b ^ (2 * (e / 2)) = b ^ (2 * (e / 2) + 1) by ring]
        congr 1
        omega
      · simp only [if_neg hodd]
        rw [hr, ← sq, ← pow_mul]
        congr 1
        omega

/-! ### Byte-string helpers

`fromBytesBE` is Go's `new(big.Int).SetBytes`; `natBytesBE` is Go's
`(*big.Int).Bytes` (minimal big-endian, empty for zero); `bitLen` is
`(*big.Int).BitLen`. -/

/-- Big-endian interpretation of a byte string (Go `big.Int.SetBytes`). -/
def fromBytesBE (l : List Nat) : Nat := l.foldl (fun acc b => acc * 256 + b) 0

/-- Minimal big-endian byte representation, fuel-recursive. -/
def natBytesAux : Nat → Nat → List Nat
  | 0, _ => []
  | fuel+1, n => if n = 0 then [] else natBytesAux fuel (n / 256) ++ [n % 256]

/-- Go `(*big.Int).Bytes()` for values below `2 ^ 264`. -/
def natBytesBE (n : Nat) : List Nat := natBytesAux 33 n

/-- Number of bits, fuel-recursive (Go `(*big.Int).BitLen()`). -/
def bitLenAux : Nat → Nat → Nat
  | 0, _ => 0
  | fuel+1, n => if n = 0 then 0 else bitLenAux fuel (n / 2) + 1

/-- Go `(*big.Int).BitLen()` for values below `2 ^ 257`. -/
def bitLen (n : Nat) : Nat := bitLenAux 257 n

/-- Semantics of Go's `copy(dest[off:], src)` on a value-level list: the
result replaces the entries of `dest` from position `off` on by `src`,
truncated at the end of `dest`. -/
def goCopy (dest : List Nat) (off : Nat) (src : List Nat) : List Nat :=
  dest.take off ++ src.take (dest.length - off) ++ dest.drop (off + src.length)

/-- 32-byte big-endian, zero-left-padded encoding (the spec's §3 scalar
serialization). -/
def bytes32BE (n : Nat) : List Nat :=
  List.replicate (32 - (natBytesBE n).length) 0 ++ natBytesBE n

theorem fromBytesBE_append (l₁ l₂ : List Nat) :
    fromBytesBE (l₁ ++ l₂) = (l₂.foldl (fun acc b => acc * 256 + b) (fromBytesBE l₁)) := by
  simp [fromBytesBE, List.foldl_append]

theorem fromBytesBE_zeros_append (k : Nat) (l : List Nat) :
    fromBytesBE (List.replicate k 0 ++ l) = fromBytesBE l := by
  induction k with
  | zero => simp
  | succ k ih =>
    simpa [List.replicate_succ, fromBytesBE] using ih

theorem natBytesAux_spec (fuel n : Nat) (h : n < 256 ^ fuel) :
    fromBytesBE (natBytesAux fuel n) = n := by
  induction fuel generalizing n with
  | zero => simp at h; simp [h, natBytesAux, fromBytesBE]
  | succ fuel ih =>
    simp only [natBytesAux]
    by_cases h0 : n = 0
    · simp [h0, fromBytesBE]
    · simp only [if_neg h0]
      have hlt : n / 256 < 256 ^ fuel := by
        rw [pow_succ] at h
        omega
      rw [fromBytesBE_append, ih _ hlt]
      simp only [List.foldl_cons, List.foldl_nil]
      omega

theorem fromBytesBE_natBytesBE (n : Nat) (h : n < 2 ^ 256) :
    fromBytesBE (natBytesBE n) = n :=
  natBytesAux_spec 33 n (lt_of_lt_of_le h (by norm_num))

theorem fromBytesBE_bytes32BE (n : Nat) (h : n < 2 ^ 256) :
    fromBytesBE (bytes32BE n) = n := by
  rw [bytes32BE, fromBytesBE_zeros_append, fromBytesBE_natBytesBE n h]

theorem natBytesAux_len_le (fuel n : Nat) : (natBytesAux fuel n).length ≤ fuel := by
  induction fuel generalizing n with
  | zero => simp [natBytesAux]
  | succ fuel ih =>
    simp only [natBytesAux]
    split
    · simp
    · simp only [List.length_append, List.length_cons, List.length_nil]
      have := ih (n / 256)
      omega

theorem natBytesAux_zero (fuel : Nat) : natBytesAux fuel 0 = [] := by
  cases fuel <;> simp [natBytesAux]

theorem bitLenAux_zero (fuel : Nat) : bitLenAux fuel 0 = 0 := by
  cases fuel <;> simp [bitLenAux]

/-- The byte length of a positive value sandwiches it between powers of 256. -/
theorem natBytesAux_len_bounds (fuel n : Nat) (hn : 0 < n) (h : n < 256 ^ fuel) :
    256 ^ ((natBytesAux fuel n).length - 1) ≤ n ∧ n < 256 ^ (natBytesAux fuel n).length := by
  induction fuel generalizing n with
  | zero => simp at h; omega
  | succ fuel ih =>
    simp only [natBytesAux, if_neg (Nat.pos_iff_ne_zero.mp hn)]
    simp only [List.length_append, List.length_cons, List.length_nil]
    by_cases hq : n / 256 = 0
    · have hn256 : n < 256 := by omega
      simp [natBytesAux, hq, natBytesAux_zero]
      omega
    · have hqpos : 0 < n / 256 := Nat.pos_of_ne_zero hq
      have hqlt : n / 256 < 256 ^ fuel := by rw [pow_succ] at h; omega
      obtain ⟨hlo, hhi⟩ := ih (n / 256) hqpos hqlt
      have hlen : 0 < (natBytesAux fuel (n / 256)).length := by
        by_contra hc
        simp only [Nat.pos_iff_ne_zero, ne_eq, not_not] at hc
        rw [hc] at hhi
        simp at hhi
        omega
      constructor
      · calc 256 ^ ((natBytesAux fuel (n / 256)).length + 1 - 1)
            = 256 ^ ((natBytesAux fuel (n / 256)).length - 1) * 256 := by
              rw [← pow_succ]; congr 1; omega
          _ ≤ (n / 256) * 256 := by exact Nat.mul_le_mul_right _ hlo
          _ ≤ n := by omega
      · calc n < (n / 256 + 1) * 256 := by omega
          _ ≤ 256 ^ (natBytesAux fuel (n / 256)).length * 256 := by
              exact Nat.mul_le_mul_right _ (by omega)
          _ = 256 ^ ((natBytesAux fuel (n / 256)).length + 1) := by rw [pow_succ]

theorem bitLenAux_bounds (fuel n : Nat) (hn : 0 < n) (h : n < 2 ^ fuel) :
    2 ^ (bitLenAux fuel n - 1) ≤ n ∧ n < 2 ^ bitLenAux fuel n := by
  induction fuel generalizing n with
  | zero => simp at h; omega
  | succ fuel ih =>
    simp only [bitLenAux, if_neg (Nat.pos_iff_ne_zero.mp hn)]
    by_cases hq : n / 2 = 0
    · have : n = 1 := by omega
      simp [this, bitLenAux, bitLenAux_zero]
    · have hqpos : 0 < n / 2 := Nat.pos_of_ne_zero hq
      have hqlt : n / 2 < 2 ^ fuel := by rw [pow_succ] at h; omega
      obtain ⟨hlo, hhi⟩ := ih (n / 2) hqpos hqlt
      have hblen : 0 < bitLenAux fuel (n / 2) := by
        by_contra hc
        simp only [Nat.pos_iff_ne_zero, ne_eq, not_not] at hc
        rw [hc] at hhi
        simp at hhi
        omega
      constructor
      · calc 2 ^ (bitLenAux fuel (n / 2) + 1 - 1)
            = 2 ^ (bitLenAux fuel (n / 2) - 1) * 2 := by rw [← pow_succ]; congr 1; omega
          _ ≤ (n / 2) * 2 := Nat.mul_le_mul_right _ hlo
          _ ≤ n := by omega
      · calc n < (n / 2 + 1) * 2 := by omega
          _ ≤ 2 ^ bitLenAux fuel (n / 2) * 2 := Nat.mul_le_mul_right _ (by omega)
          _ = 2 ^ (bitLenAux fuel (n / 2) + 1) := by rw [pow_succ]

/-- The Go offset-and-copy serialization of a positive 256-bit scalar into a
zeroed 32-byte array produces exactly the zero-left-padded big-endian
encoding. -/
theorem goCopy_offset_eq_bytes32BE (s : Nat) (hpos : 0 < s) (hlt : s < 2 ^ 256) :
    goCopy (List.replicate 32 0) ((256 - bitLen s) / 8) (natBytesBE s) = bytes32BE s := by
  have h256 : s < 256 ^ 33 := lt_of_lt_of_le hlt (by norm_num)
  obtain ⟨hLlo, hLhi⟩ := natBytesAux_len_bounds 33 s hpos h256
  obtain ⟨hBlo, hBhi⟩ := bitLenAux_bounds 257 s hpos (lt_of_lt_of_le hlt (by norm_num))
  set L := (natBytesAux 33 s).length with hL
  set B := bitLenAux 257 s with hB
  have hLpos : 0 < L := by
    by_contra hc
    simp only [Nat.pos_iff_ne_zero, ne_eq, not_not] at hc
    rw [hc] at hLhi; simp at hLhi; omega
  have hBpos : 0 < B := by
    by_contra hc
    simp only [Nat.pos_iff_ne_zero, ne_eq, not_not] at hc
    rw [hc] at hBhi; simp at hBhi; omega
  -- relate B and L : 8*(L-1) < B ≤ 8*L
  have h1 : 2 ^ (8 * (L - 1)) ≤ s := by
    calc 2 ^ (8 * (L - 1)) = 256 ^ (L - 1) := by
          rw [show (256 : Nat) = 2 ^ 8 by norm_num, ← pow_mul]
      _ ≤ s := hLlo
  have h2 : s < 2 ^ (8 * L) := by
    calc s < 256 ^ L := hLhi
      _ = 2 ^ (8 * L) := by rw [show (256 : Nat) = 2 ^ 8 by norm_num, ← pow_mul]
  have hBL1 : 8 * (L - 1) < B := by
    by_contra hc
    push_neg at hc
    have : (2 : Nat) ^ B ≤ 2 ^ (8 * (L - 1)) := Nat.pow_le_pow_right (by norm_num) hc
    omega
  have hBL2 : B ≤ 8 * L := by
    by_contra hc
    push_neg at hc
    have : (2 : Nat) ^ (8 * L) ≤ 2 ^ (B - 1) := Nat.pow_le_pow_right (by norm_num) (by omega)
    omega
  have hB256 : B ≤ 256 := by
    by_contra hc
    push_neg at hc
    have : (2 : Nat) ^ 256 ≤ 2 ^ (B - 1) := Nat.pow_le_pow_right (by norm_num) (by omega)
    omega
  have hL32 : L ≤ 32 := by omega
  have hoff : (256 - B) / 8 = 32 - L := by omega
  rw [bitLen] at *
  rw [hoff]
  unfold goCopy bytes32BE natBytesBE
  rw [← hL]
  have hlen : (List.replicate 32 (0 : Nat)).length = 32 := by simp
  rw [List.take_replicate, List.drop_replicate, hlen]
  have htake : min (32 - L) 32 = 32 - L := by omega
  have h32L : 32 - (32 - L) = L := by omega
  rw [htake, h32L, List.take_of_length_le (le_of_eq rfl)]
  have hdrop : 32 - (32 - L + L) = 0 := by omega
  rw [hdrop]
  simp

end DLCOracle

namespace DLCOracle

/-! ### Primality certificates for the secp256k1 field prime and group order

Each 256-bit primality fact is established through Mathlib's
`lucas_primality`, with modular exponentiations carried out by the
kernel-evaluable `powM` and the prime factorizations of `q - 1` supplied
explicitly. -/

theorem prime_divisors_one (Pp : Nat → Prop) : ∀ s, s.Prime → s ∣ 1 → Pp s := by
  intro s hs hdvd
  exact absurd (Nat.dvd_one.mp hdvd) hs.ne_one

theorem prime_divisors_step (Pp : Nat → Prop) {r M rem : Nat} (hr : r.Prime)
    (hM : M = r * rem) (h1 : Pp r) (h2 : ∀ s, s.Prime → s ∣ rem → Pp s) :
    ∀ s, s.Prime → s ∣ M → Pp s := by
  intro s hs hdvd
  rw [hM] at hdvd
  rcases (Nat.Prime.dvd_mul hs).mp hdvd with h | h
  · rwa [(Nat.prime_dvd_prime_iff_eq hs hr).mp h]
  · exact h2 s hs h

/-- Lucas primality test phrased over `powM` so that every arithmetic
obligation is a kernel-decidable statement about `Nat` literals. -/
theorem lucasNat (q a M : Nat) (h2 : 2 ≤ q) (hq : M < 2 ^ 256) (hM : M + 1 = q)
    (ha1 : powM 256 a M q = 1 % q)
    (hstep : ∀ r, r.Prime → r ∣ M → powM 256 a (M / r) q ≠ 1 % q) : q.Prime := by
  haveI : NeZero q := ⟨by omega⟩
  have hq1 : q - 1 = M := by omega
  have hone : ((1 % q : Nat) : ZMod q) = 1 := by
    rw [ZMod.natCast_mod, Nat.cast_one]
  apply lucas_primality q (a : ZMod q)
  · rw [hq1, ← powM_cast 256 a M hq, ha1, hone]
  · intro r hr hdvd
    rw [hq1] at hdvd ⊢
    intro hcontra
    apply hstep r hr hdvd
    have hlt : M / r < 2 ^ 256 := lt_of_le_of_lt (Nat.div_le_self _ _) hq
    have hc : ((powM 256 a (M / r) q : Nat) : ZMod q) = ((1 % q : Nat) : ZMod q) := by
      rw [powM_cast 256 a (M / r) hlt, hcontra, hone]
    have hv1 : powM 256 a (M / r) q < q := powM_lt _ _ _ _ (by omega)
    have hv2 : 1 % q < q := Nat.mod_lt _ (by omega)
    have := congrArg ZMod.val hc
    rwa [ZMod.val_cast_of_lt hv1, ZMod.val_cast_of_lt hv2] at this

end DLCOracle

namespace DLCOracle

theorem prime_2 : Nat.Prime 2 := by norm_num

theorem prime_3 : Nat.Prime 3 := by norm_num

theorem prime_7 : Nat.Prime 7 := by norm_num

theorem prime_13441 : Nat.Prime 13441 := by norm_num

theorem prime_5 : Nat.Prime 5 := by norm_num

theorem prime_29 : Nat.Prime 29 := by norm_num

theorem prime_31 : Nat.Prime 31 := by norm_num

theorem prime_7723 : Nat.Prime 7723 := by norm_num

theorem prime_5323 : Nat.Prime 5323 := by norm_num

theorem prime_2621 : Nat.Prime 2621 := by norm_num

theorem prime_24809 : Nat.Prime 24809 := by norm_num

theorem prime_971 : Nat.Prime 971 := by norm_num

theorem prime_1373 : Nat.Prime 1373 := by norm_num

theorem prime_13331831 : Nat.Prime 13331831 := by
  apply lucasNat 13331831 13 13331830 (by norm_num) (by norm_num) (by norm_num) (by decide)
  apply prime_divisors_step (fun s => powM 256 13 (13331830 / s) 13331831 ≠ 1 % 13331831) prime_2 (by norm_num : (13331830 : Nat) = 2 * 6665915) (by decide)
  apply prime_divisors_step (fun s => powM 256 13 (13331830 / s) 13331831 ≠ 1 % 13331831) prime_5 (by norm_num : (6665915 : Nat) = 5 * 1333183) (by decide)
  apply prime_divisors_step (fun s => powM 256 13 (13331830 / s) 13331831 ≠ 1 % 13331831) prime_971 (by norm_num : (1333183 : Nat) = 971 * 1373) (by decide)
  apply prime_divisors_step (fun s => powM 256 13 (13331830 / s) 13331831 ≠ 1 % 13331831) prime_1373 (by norm_num : (1373 : Nat) = 1373 * 1) (by decide)
  exact prime_divisors_one (fun s => powM 256 13 (13331830 / s) 13331831 ≠ 1 % 13331831)

theorem prime_173378833005251801 : Nat.Prime 173378833005251801 := by
  apply lucasNat 173378833005251801 6 173378833005251800 (by norm_num) (by norm_num) (by norm_num) (by decide)
  apply prime_divisors_step (fun s => powM 256 6 (173378833005251800 / s) 173378833005251801 ≠ 1 % 173378833005251801) prime_2 (by norm_num : (173378833005251800 : Nat) = 2 * 86689416502625900) (by decide)
  apply prime_divisors_step (fun s => powM 256 6 (173378833005251800 / s) 173378833005251801 ≠ 1 % 173378833005251801) prime_2 (by norm_num : (86689416502625900 : Nat) = 2 * 43344708251312950) (by decide)
  apply prime_divisors_step (fun s => powM 256 6 (173378833005251800 / s) 173378833005251801 ≠ 1 % 173378833005251801) prime_2 (by norm_num : (43344708251312950 : Nat) = 2 * 21672354125656475) (by decide)
  apply prime_divisors_step (fun s => powM 256 6 (173378833005251800 / s) 173378833005251801 ≠ 1 % 173378833005251801) prime_5 (by norm_num : (21672354125656475 : Nat) = 5 * 4334470825131295) (by decide)
  apply prime_divisors_step (fun s => powM 256 6 (173378833005251800 / s) 173378833005251801 ≠ 1 % 173378833005251801) prime_5 (by norm_num : (4334470825131295 : Nat) = 5 * 866894165026259) (by decide)
  apply prime_divisors_step (fun s => powM 256 6 (173378833005251800 / s) 173378833005251801 ≠ 1 % 173378833005251801) prime_2621 (by norm_num : (866894165026259 : Nat) = 2621 * 330749395279) (by decide)
  apply prime_divisors_step (fun s => powM 256 6 (173378833005251800 / s) 173378833005251801 ≠ 1 % 173378833005251801) prime_24809 (by norm_num : (330749395279 : Nat) = 24809 * 13331831) (by decide)
  apply prime_divisors_step (fun s => powM 256 6 (173378833005251800 / s) 173378833005251801 ≠ 1 % 173378833005251801) prime_13331831 (by norm_num : (13331831 : Nat) = 13331831 * 1) (by decide)
  exact prime_divisors_one (fun s => powM 256 6 (173378833005251800 / s) 173378833005251801 ≠ 1 % 173378833005251801)

theorem prime_22149492674086928081353 : Nat.Prime 22149492674086928081353 := by
  apply lucasNat 22149492674086928081353 5 22149492674086928081352 (by norm_num) (by norm_num) (by norm_num) (by decide)
  apply prime_divisors_step (fun s => powM 256 5 (22149492674086928081352 / s) 22149492674086928081353 ≠ 1 % 22149492674086928081353) prime_2 (by norm_num : (22149492674086928081352 : Nat) = 2 * 11074746337043464040676) (by decide)
  apply prime_divisors_step (fun s => powM 256 5 (22149492674086928081352 / s) 22149492674086928081353 ≠ 1 % 22149492674086928081353) prime_2 (by norm_num : (11074746337043464040676 : Nat) = 2 * 5537373168521732020338) (by decide)
  apply prime_divisors_step (fun s => powM 256 5 (22149492674086928081352 / s) 22149492674086928081353 ≠ 1 % 22149492674086928081353) prime_2 (by norm_num : (5537373168521732020338 : Nat) = 2 * 2768686584260866010169) (by decide)
  apply prime_divisors_step (fun s => powM 256 5 (22149492674086928081352 / s) 22149492674086928081353 ≠ 1 % 22149492674086928081353) prime_3 (by norm_num : (2768686584260866010169 : Nat) = 3 * 922895528086955336723) (by decide)
  apply prime_divisors_step (fun s => powM 256 5 (22149492674086928081352 / s) 22149492674086928081353 ≠ 1 % 22149492674086928081353) prime_5323 (by norm_num : (922895528086955336723 : Nat) = 5323 * 173378833005251801) (by decide)
  apply prime_divisors_step (fun s => powM 256 5 (22149492674086928081352 / s) 22149492674086928081353 ≠ 1 % 22149492674086928081353) prime_173378833005251801 (by norm_num : (173378833005251801 : Nat) = 173378833005251801 * 1) (by decide)
  exact prime_divisors_one (fun s => powM 256 5 (22149492674086928081352 / s) 22149492674086928081353 ≠ 1 % 22149492674086928081353)

theorem prime_132896956044521568488119 : Nat.Prime 132896956044521568488119 := by
  apply lucasNat 132896956044521568488119 6 132896956044521568488118 (by norm_num) (by norm_num) (by norm_num) (by decide)
  apply prime_divisors_step (fun s => powM 256 6 (132896956044521568488118 / s) 132896956044521568488119 ≠ 1 % 132896956044521568488119) prime_2 (by norm_num : (132896956044521568488118 : Nat) = 2 * 66448478022260784244059) (by decide)
  apply prime_divisors_step (fun s => powM 256 6 (132896956044521568488118 / s) 132896956044521568488119 ≠ 1 % 132896956044521568488119) prime_3 (by norm_num : (66448478022260784244059 : Nat) = 3 * 22149492674086928081353) (by decide)
  apply prime_divisors_step (fun s => powM 256 6 (132896956044521568488118 / s) 132896956044521568488119 ≠ 1 % 132896956044521568488119) prime_22149492674086928081353 (by norm_num : (22149492674086928081353 : Nat) = 22149492674086928081353 * 1) (by decide)
  exact prime_divisors_one (fun s => powM 256 6 (132896956044521568488118 / s) 132896956044521568488119 ≠ 1 % 132896956044521568488119)

theorem prime_11 : Nat.Prime 11 := by norm_num

theorem prime_1627 : Nat.Prime 1627 := by norm_num

theorem prime_2657 : Nat.Prime 2657 := by norm_num

theorem prime_4423 : Nat.Prime 4423 := by norm_num

theorem prime_41201 : Nat.Prime 41201 := by norm_num

theorem prime_96557 : Nat.Prime 96557 := by norm_num

theorem prime_20113 : Nat.Prime 20113 := by norm_num

theorem prime_1206781 : Nat.Prime 1206781 := by
  apply lucasNat 1206781 10 1206780 (by norm_num) (by norm_num) (by norm_num) (by decide)
  apply prime_divisors_step (fun s => powM 256 10 (1206780 / s) 1206781 ≠ 1 % 1206781) prime_2 (by norm_num : (1206780 : Nat) = 2 * 603390) (by decide)
  apply prime_divisors_step (fun s => powM 256 10 (1206780 / s) 1206781 ≠ 1 % 1206781) prime_2 (by norm_num : (603390 : Nat) = 2 * 301695) (by decide)
  apply prime_divisors_step (fun s => powM 256 10 (1206780 / s) 1206781 ≠ 1 % 1206781) prime_3 (by norm_num : (301695 : Nat) = 3 * 100565) (by decide)
  apply prime_divisors_step (fun s => powM 256 10 (1206780 / s) 1206781 ≠ 1 % 1206781) prime_5 (by norm_num : (100565 : Nat) = 5 * 20113) (by decide)
  apply prime_divisors_step (fun s => powM 256 10 (1206780 / s) 1206781 ≠ 1 % 1206781) prime_20113 (by norm_num : (20113 : Nat) = 20113 * 1) (by decide)
  exact prime_divisors_one (fun s => powM 256 10 (1206780 / s) 1206781 ≠ 1 % 1206781)

theorem prime_7240687 : Nat.Prime 7240687 := by
  apply lucasNat 7240687 3 7240686 (by norm_num) (by norm_num) (by norm_num) (by decide)
  apply prime_divisors_step (fun s => powM 256 3 (7240686 / s) 7240687 ≠ 1 % 7240687) prime_2 (by norm_num : (7240686 : Nat) = 2 * 3620343) (by decide)
  apply prime_divisors_step (fun s => powM 256 3 (7240686 / s) 7240687 ≠ 1 % 7240687) prime_3 (by norm_num : (3620343 : Nat) = 3 * 1206781) (by decide)
  apply prime_divisors_step (fun s => powM 256 3 (7240686 / s) 7240687 ≠ 1 % 7240687) prime_1206781 (by norm_num : (1206781 : Nat) = 1206781 * 1) (by decide)
  exact prime_divisors_one (fun s => powM 256 3 (7240686 / s) 7240687 ≠ 1 % 7240687)

theorem prime_53 : Nat.Prime 53 := by norm_num

theorem prime_107590001 : Nat.Prime 107590001 := by
  apply lucasNat 107590001 3 107590000 (by norm_num) (by norm_num) (by norm_num) (by decide)
  apply prime_divisors_step (fun s => powM 256 3 (107590000 / s) 107590001 ≠ 1 % 107590001) prime_2 (by norm_num : (107590000 : Nat) = 2 * 53795000) (by decide)
  apply prime_divisors_step (fun s => powM 256 3 (107590000 / s) 107590001 ≠ 1 % 107590001) prime_2 (by norm_num : (53795000 : Nat) = 2 * 26897500) (by decide)
  apply prime_divisors_step (fun s => powM 256 3 (107590000 / s) 107590001 ≠ 1 % 107590001) prime_2 (by norm_num : (26897500 : Nat) = 2 * 13448750) (by decide)
  apply prime_divisors_step (fun s => powM 256 3 (107590000 / s) 107590001 ≠ 1 % 107590001) prime_2 (by norm_num : (13448750 : Nat) = 2 * 6724375) (by decide)
  apply prime_divisors_step (fun s => powM 256 3 (107590000 / s) 107590001 ≠ 1 % 107590001) prime_5 (by norm_num : (6724375 : Nat) = 5 * 1344875) (by decide)
  apply prime_divisors_step (fun s => powM 256 3 (107590000 / s) 107590001 ≠ 1 % 107590001) prime_5 (by norm_num : (1344875 : Nat) = 5 * 268975) (by decide)
  apply prime_divisors_step (fun s => powM 256 3 (107590000 / s) 107590001 ≠ 1 % 107590001) prime_5 (by norm_num : (268975 : Nat) = 5 * 53795) (by decide)
  apply prime_divisors_step (fun s => powM 256 3 (107590000 / s) 107590001 ≠ 1 % 107590001) prime_5 (by norm_num : (53795 : Nat) = 5 * 10759) (by decide)
  apply prime_divisors_step (fun s => powM 256 3 (107590000 / s) 107590001 ≠ 1 % 107590001) prime_7 (by norm_num : (10759 : Nat) = 7 * 1537) (by decide)
  apply prime_divisors_step (fun s => powM 256 3 (107590000 / s) 107590001 ≠ 1 % 107590001) prime_29 (by norm_num : (1537 : Nat) = 29 * 53) (by decide)
  apply prime_divisors_step (fun s => powM 256 3 (107590000 / s) 107590001 ≠ 1 % 107590001) prime_53 (by norm_num : (53 : Nat) = 53 * 1) (by decide)
  exact prime_divisors_one (fun s => powM 256 3 (107590000 / s) 107590001 ≠ 1 % 107590001)

theorem prime_255515944373312847190720520512484175977 : Nat.Prime 255515944373312847190720520512484175977 := by
  apply lucasNat 255515944373312847190720520512484175977 3 255515944373312847190720520512484175976 (by norm_num) (by norm_num) (by norm_num) (by decide)
  apply prime_divisors_step (fun s => powM 256 3 (255515944373312847190720520512484175976 / s) 255515944373312847190720520512484175977 ≠ 1 % 255515944373312847190720520512484175977) prime_2 (by norm_num : (255515944373312847190720520512484175976 : Nat) = 2 * 127757972186656423595360260256242087988) (by decide)
  apply prime_divisors_step (fun s => powM 256 3 (255515944373312847190720520512484175976 / s) 255515944373312847190720520512484175977 ≠ 1 % 255515944373312847190720520512484175977) prime_2 (by norm_num : (127757972186656423595360260256242087988 : Nat) = 2 * 63878986093328211797680130128121043994) (by decide)
  apply prime_divisors_step (fun s => powM 256 3 (255515944373312847190720520512484175976 / s) 255515944373312847190720520512484175977 ≠ 1 % 255515944373312847190720520512484175977) prime_2 (by norm_num : (63878986093328211797680130128121043994 : Nat) = 2 * 31939493046664105898840065064060521997) (by decide)
  apply prime_divisors_step (fun s => powM 256 3 (255515944373312847190720520512484175976 / s) 255515944373312847190720520512484175977 ≠ 1 % 255515944373312847190720520512484175977) prime_7 (by norm_num : (31939493046664105898840065064060521997 : Nat) = 7 * 4562784720952015128405723580580074571) (by decide)
  apply prime_divisors_step (fun s => powM 256 3 (255515944373312847190720520512484175976 / s) 255515944373312847190720520512484175977 ≠ 1 % 255515944373312847190720520512484175977) prime_7 (by norm_num : (4562784720952015128405723580580074571 : Nat) = 7 * 651826388707430732629389082940010653) (by decide)
  apply prime_divisors_step (fun s => powM 256 3 (255515944373312847190720520512484175976 / s) 255515944373312847190720520512484175977 ≠ 1 % 255515944373312847190720520512484175977) prime_11 (by norm_num : (651826388707430732629389082940010653 : Nat) = 11 * 59256944427948248420853552994546423) (by decide)
  apply prime_divisors_step (fun s => powM 256 3 (255515944373312847190720520512484175976 / s) 255515944373312847190720520512484175977 ≠ 1 % 255515944373312847190720520512484175977) prime_1627 (by norm_num : (59256944427948248420853552994546423 : Nat) = 1627 * 36420986126581590916320561152149) (by decide)
  apply prime_divisors_step (fun s => powM 256 3 (255515944373312847190720520512484175976 / s) 255515944373312847190720520512484175977 ≠ 1 % 255515944373312847190720520512484175977) prime_2657 (by norm_num : (36420986126581590916320561152149 : Nat) = 2657 * 13707559701385619464177855157) (by decide)
  apply prime_divisors_step (fun s => powM 256 3 (255515944373312847190720520512484175976 / s) 255515944373312847190720520512484175977 ≠ 1 % 255515944373312847190720520512484175977) prime_4423 (by norm_num : (13707559701385619464177855157 : Nat) = 4423 * 3099154352562880276775459) (by decide)
  apply prime_divisors_step (fun s => powM 256 3 (255515944373312847190720520512484175976 / s) 255515944373312847190720520512484175977 ≠ 1 % 255515944373312847190720520512484175977) prime_41201 (by norm_num : (3099154352562880276775459 : Nat) = 41201 * 75220367286300824659) (by decide)
  apply prime_divisors_step (fun s => powM 256 3 (255515944373312847190720520512484175976 / s) 255515944373312847190720520512484175977 ≠ 1 % 255515944373312847190720520512484175977) prime_96557 (by norm_num : (75220367286300824659 : Nat) = 96557 * 779025521570687) (by decide)
  apply prime_divisors_step (fun s => powM 256 3 (255515944373312847190720520512484175976 / s) 255515944373312847190720520512484175977 ≠ 1 % 255515944373312847190720520512484175977) prime_7240687 (by norm_num : (779025521570687 : Nat) = 7240687 * 107590001) (by decide)
  apply prime_divisors_step (fun s => powM 256 3 (255515944373312847190720520512484175976 / s) 255515944373312847190720520512484175977 ≠ 1 % 255515944373312847190720520512484175977) prime_107590001 (by norm_num : (107590001 : Nat) = 107590001 * 1) (by decide)
  exact prime_divisors_one (fun s => powM 256 3 (255515944373312847190720520512484175976 / s) 255515944373312847190720520512484175977 ≠ 1 % 255515944373312847190720520512484175977)

theorem prime_205115282021455665897114700593932402728804164701536103180137503955397371 : Nat.Prime 205115282021455665897114700593932402728804164701536103180137503955397371 := by
  apply lucasNat 205115282021455665897114700593932402728804164701536103180137503955397371 10 205115282021455665897114700593932402728804164701536103180137503955397370 (by norm_num) (by norm_num) (by norm_num) (by decide)
  apply prime_divisors_step (fun s => powM 256 10 (205115282021455665897114700593932402728804164701536103180137503955397370 / s) 205115282021455665897114700593932402728804164701536103180137503955397371 ≠ 1 % 205115282021455665897114700593932402728804164701536103180137503955397371) prime_2 (by norm_num : (205115282021455665897114700593932402728804164701536103180137503955397370 : Nat) = 2 * 102557641010727832948557350296966201364402082350768051590068751977698685) (by decide)
  apply prime_divisors_step (fun s => powM 256 10 (205115282021455665897114700593932402728804164701536103180137503955397370 / s) 205115282021455665897114700593932402728804164701536103180137503955397371 ≠ 1 % 205115282021455665897114700593932402728804164701536103180137503955397371) prime_3 (by norm_num : (102557641010727832948557350296966201364402082350768051590068751977698685 : Nat) = 3 * 34185880336909277649519116765655400454800694116922683863356250659232895) (by decide)
  apply prime_divisors_step (fun s => powM 256 10 (205115282021455665897114700593932402728804164701536103180137503955397370 / s) 205115282021455665897114700593932402728804164701536103180137503955397371 ≠ 1 % 205115282021455665897114700593932402728804164701536103180137503955397371) prime_5 (by norm_num : (34185880336909277649519116765655400454800694116922683863356250659232895 : Nat) = 5 * 6837176067381855529903823353131080090960138823384536772671250131846579) (by decide)
  apply prime_divisors_step (fun s => powM 256 10 (205115282021455665897114700593932402728804164701536103180137503955397370 / s) 205115282021455665897114700593932402728804164701536103180137503955397371 ≠ 1 % 205115282021455665897114700593932402728804164701536103180137503955397371) prime_29 (by norm_num : (6837176067381855529903823353131080090960138823384536772671250131846579 : Nat) = 29 * 235764691978684673444959425970037244515866855978777130092112073511951) (by decide)
  apply prime_divisors_step (fun s => powM 256 10 (205115282021455665897114700593932402728804164701536103180137503955397370 / s) 205115282021455665897114700593932402728804164701536103180137503955397371 ≠ 1 % 205115282021455665897114700593932402728804164701536103180137503955397371) prime_29 (by norm_num : (235764691978684673444959425970037244515866855978777130092112073511951 : Nat) = 29 * 8129816964782230118791704343794387741926443309613004485934899086619) (by decide)
  apply prime_divisors_step (fun s => powM 256 10 (205115282021455665897114700593932402728804164701536103180137503955397370 / s) 205115282021455665897114700593932402728804164701536103180137503955397371 ≠ 1 % 205115282021455665897114700593932402728804164701536103180137503955397371) prime_31 (by norm_num : (8129816964782230118791704343794387741926443309613004485934899086619 : Nat) = 31 * 262252160154265487702958204638528636836336880955258209223706422149) (by decide)
  apply prime_divisors_step (fun s => powM 256 10 (205115282021455665897114700593932402728804164701536103180137503955397370 / s) 205115282021455665897114700593932402728804164701536103180137503955397371 ≠ 1 % 205115282021455665897114700593932402728804164701536103180137503955397371) prime_7723 (by norm_num : (262252160154265487702958204638528636836336880955258209223706422149 : Nat) = 7723 * 33957291228054575644562761185877073266390894853717235429717263) (by decide)
  apply prime_divisors_step (fun s => powM 256 10 (205115282021455665897114700593932402728804164701536103180137503955397370 / s) 205115282021455665897114700593932402728804164701536103180137503955397371 ≠ 1 % 205115282021455665897114700593932402728804164701536103180137503955397371) prime_132896956044521568488119 (by norm_num : (33957291228054575644562761185877073266390894853717235429717263 : Nat) = 132896956044521568488119 * 255515944373312847190720520512484175977) (by decide)
  apply prime_divisors_step (fun s => powM 256 10 (205115282021455665897114700593932402728804164701536103180137503955397370 / s) 205115282021455665897114700593932402728804164701536103180137503955397371 ≠ 1 % 205115282021455665897114700593932402728804164701536103180137503955397371) prime_255515944373312847190720520512484175977 (by norm_num : (255515944373312847190720520512484175977 : Nat) = 255515944373312847190720520512484175977 * 1) (by decide)
  exact prime_divisors_one (fun s => powM 256 10 (205115282021455665897114700593932402728804164701536103180137503955397370 / s) 205115282021455665897114700593932402728804164701536103180137503955397371 ≠ 1 % 205115282021455665897114700593932402728804164701536103180137503955397371)

theorem prime_115792089237316195423570985008687907853269984665640564039457584007908834671663 : Nat.Prime 115792089237316195423570985008687907853269984665640564039457584007908834671663 := by
  apply lucasNat 115792089237316195423570985008687907853269984665640564039457584007908834671663 3 115792089237316195423570985008687907853269984665640564039457584007908834671662 (by norm_num) (by norm_num) (by norm_num) (by decide)
  apply prime_divisors_step (fun s => powM 256 3 (115792089237316195423570985008687907853269984665640564039457584007908834671662 / s) 115792089237316195423570985008687907853269984665640564039457584007908834671663 ≠ 1 % 115792089237316195423570985008687907853269984665640564039457584007908834671663) prime_2 (by norm_num : (115792089237316195423570985008687907853269984665640564039457584007908834671662 : Nat) = 2 * 57896044618658097711785492504343953926634992332820282019728792003954417335831) (by decide)
  apply prime_divisors_step (fun s => powM 256 3 (115792089237316195423570985008687907853269984665640564039457584007908834671662 / s) 115792089237316195423570985008687907853269984665640564039457584007908834671663 ≠ 1 % 115792089237316195423570985008687907853269984665640564039457584007908834671663) prime_3 (by norm_num : (57896044618658097711785492504343953926634992332820282019728792003954417335831 : Nat) = 3 * 19298681539552699237261830834781317975544997444273427339909597334651472445277) (by decide)
  apply prime_divisors_step (fun s => powM 256 3 (115792089237316195423570985008687907853269984665640564039457584007908834671662 / s) 115792089237316195423570985008687907853269984665640564039457584007908834671663 ≠ 1 % 115792089237316195423570985008687907853269984665640564039457584007908834671663) prime_7 (by norm_num : (19298681539552699237261830834781317975544997444273427339909597334651472445277 : Nat) = 7 * 2756954505650385605323118690683045425077856777753346762844228190664496063611) (by decide)
  apply prime_divisors_step (fun s => powM 256 3 (115792089237316195423570985008687907853269984665640564039457584007908834671662 / s) 115792089237316195423570985008687907853269984665640564039457584007908834671663 ≠ 1 % 115792089237316195423570985008687907853269984665640564039457584007908834671663) prime_13441 (by norm_num : (2756954505650385605323118690683045425077856777753346762844228190664496063611 : Nat) = 13441 * 205115282021455665897114700593932402728804164701536103180137503955397371) (by decide)
  apply prime_divisors_step (fun s => powM 256 3 (115792089237316195423570985008687907853269984665640564039457584007908834671662 / s) 115792089237316195423570985008687907853269984665640564039457584007908834671663 ≠ 1 % 115792089237316195423570985008687907853269984665640564039457584007908834671663) prime_205115282021455665897114700593932402728804164701536103180137503955397371 (by norm_num : (205115282021455665897114700593932402728804164701536103180137503955397371 : Nat) = 205115282021455665897114700593932402728804164701536103180137503955397371 * 1) (by decide)
  exact prime_divisors_one (fun s => powM 256 3 (115792089237316195423570985008687907853269984665640564039457584007908834671662 / s) 115792089237316195423570985008687907853269984665640564039457584007908834671663 ≠ 1 % 115792089237316195423570985008687907853269984665640564039457584007908834671663)

theorem prime_149 : Nat.Prime 149 := by norm_num

theorem prime_631 : Nat.Prime 631 := by norm_num

theorem prime_16699 : Nat.Prime 16699 := by norm_num

theorem prime_85831 : Nat.Prime 85831 := by norm_num

theorem prime_97 : Nat.Prime 97 := by norm_num

theorem prime_2011 : Nat.Prime 2011 := by norm_num

theorem prime_4681609 : Nat.Prime 4681609 := by
  apply lucasNat 4681609 23 4681608 (by norm_num) (by norm_num) (by norm_num) (by decide)
  apply prime_divisors_step (fun s => powM 256 23 (4681608 / s) 4681609 ≠ 1 % 4681609) prime_2 (by norm_num : (4681608 : Nat) = 2 * 2340804) (by decide)
  apply prime_divisors_step (fun s => powM 256 23 (4681608 / s) 4681609 ≠ 1 % 4681609) prime_2 (by norm_num : (2340804 : Nat) = 2 * 1170402) (by decide)
  apply prime_divisors_step (fun s => powM 256 23 (4681608 / s) 4681609 ≠ 1 % 4681609) prime_2 (by norm_num : (1170402 : Nat) = 2 * 585201) (by decide)
  apply prime_divisors_step (fun s => powM 256 23 (4681608 / s) 4681609 ≠ 1 % 4681609) prime_3 (by norm_num : (585201 : Nat) = 3 * 195067) (by decide)
  apply prime_divisors_step (fun s => powM 256 23 (4681608 / s) 4681609 ≠ 1 % 4681609) prime_97 (by norm_num : (195067 : Nat) = 97 * 2011) (by decide)
  apply prime_divisors_step (fun s => powM 256 23 (4681608 / s) 4681609 ≠ 1 % 4681609) prime_2011 (by norm_num : (2011 : Nat) = 2011 * 1) (by decide)
  exact prime_divisors_one (fun s => powM 256 23 (4681608 / s) 4681609 ≠ 1 % 4681609)

theorem prime_107361793816595537 : Nat.Prime 107361793816595537 := by
  apply lucasNat 107361793816595537 3 107361793816595536 (by norm_num) (by norm_num) (by norm_num) (by decide)
  apply prime_divisors_step (fun s => powM 256 3 (107361793816595536 / s) 107361793816595537 ≠ 1 % 107361793816595537) prime_2 (by norm_num : (107361793816595536 : Nat) = 2 * 53680896908297768) (by decide)
  apply prime_divisors_step (fun s => powM 256 3 (107361793816595536 / s) 107361793816595537 ≠ 1 % 107361793816595537) prime_2 (by norm_num : (53680896908297768 : Nat) = 2 * 26840448454148884) (by decide)
  apply prime_divisors_step (fun s => powM 256 3 (107361793816595536 / s) 107361793816595537 ≠ 1 % 107361793816595537) prime_2 (by norm_num : (26840448454148884 : Nat) = 2 * 13420224227074442) (by decide)
  apply prime_divisors_step (fun s => powM 256 3 (107361793816595536 / s) 107361793816595537 ≠ 1 % 107361793816595537) prime_2 (by norm_num : (13420224227074442 : Nat) = 2 * 6710112113537221) (by decide)
  apply prime_divisors_step (fun s => powM 256 3 (107361793816595536 / s) 107361793816595537 ≠ 1 % 107361793816595537) prime_16699 (by norm_num : (6710112113537221 : Nat) = 16699 * 401827182079) (by decide)
  apply prime_divisors_step (fun s => powM 256 3 (107361793816595536 / s) 107361793816595537 ≠ 1 % 107361793816595537) prime_85831 (by norm_num : (401827182079 : Nat) = 85831 * 4681609) (by decide)
  apply prime_divisors_step (fun s => powM 256 3 (107361793816595536 / s) 107361793816595537 ≠ 1 % 107361793816595537) prime_4681609 (by norm_num : (4681609 : Nat) = 4681609 * 1) (by decide)
  exact prime_divisors_one (fun s => powM 256 3 (107361793816595536 / s) 107361793816595537 ≠ 1 % 107361793816595537)

theorem prime_17 : Nat.Prime 17 := by norm_num

theorem prime_59 : Nat.Prime 59 := by norm_num

theorem prime_4051 : Nat.Prime 4051 := by norm_num

theorem prime_19 : Nat.Prime 19 := by norm_num

theorem prime_113 : Nat.Prime 113 := by norm_num

theorem prime_120233 : Nat.Prime 120233 := by
  apply lucasNat 120233 3 120232 (by norm_num) (by norm_num) (by norm_num) (by decide)
  apply prime_divisors_step (fun s => powM 256 3 (120232 / s) 120233 ≠ 1 % 120233) prime_2 (by norm_num : (120232 : Nat) = 2 * 60116) (by decide)
  apply prime_divisors_step (fun s => powM 256 3 (120232 / s) 120233 ≠ 1 % 120233) prime_2 (by norm_num : (60116 : Nat) = 2 * 30058) (by decide)
  apply prime_divisors_step (fun s => powM 256 3 (120232 / s) 120233 ≠ 1 % 120233) prime_2 (by norm_num : (30058 : Nat) = 2 * 15029) (by decide)
  apply prime_divisors_step (fun s => powM 256 3 (120232 / s) 120233 ≠ 1 % 120233) prime_7 (by norm_num : (15029 : Nat) = 7 * 2147) (by decide)
  apply prime_divisors_step (fun s => powM 256 3 (120232 / s) 120233 ≠ 1 % 120233) prime_19 (by norm_num : (2147 : Nat) = 19 * 113) (by decide)
  apply prime_divisors_step (fun s => powM 256 3 (120232 / s) 120233 ≠ 1 % 120233) prime_113 (by norm_num : (113 : Nat) = 113 * 1) (by decide)
  exact prime_divisors_one (fun s => powM 256 3 (120232 / s) 120233 ≠ 1 % 120233)

theorem prime_797 : Nat.Prime 797 := by norm_num

theorem prime_9349 : Nat.Prime 9349 := by norm_num

theorem prime_44706919 : Nat.Prime 44706919 := by
  apply lucasNat 44706919 6 44706918 (by norm_num) (by norm_num) (by norm_num) (by decide)
  apply prime_divisors_step (fun s => powM 256 6 (44706918 / s) 44706919 ≠ 1 % 44706919) prime_2 (by norm_num : (44706918 : Nat) = 2 * 22353459) (by decide)
  apply prime_divisors_step (fun s => powM 256 6 (44706918 / s) 44706919 ≠ 1 % 44706919) prime_3 (by norm_num : (22353459 : Nat) = 3 * 7451153) (by decide)
  apply prime_divisors_step (fun s => powM 256 6 (44706918 / s) 44706919 ≠ 1 % 44706919) prime_797 (by norm_num : (7451153 : Nat) = 797 * 9349) (by decide)
  apply prime_divisors_step (fun s => powM 256 6 (44706918 / s) 44706919 ≠ 1 % 44706919) prime_9349 (by norm_num : (9349 : Nat) = 9349 * 1) (by decide)
  exact prime_divisors_one (fun s => powM 256 6 (44706918 / s) 44706919 ≠ 1 % 44706919)

theorem prime_174723607534414371449 : Nat.Prime 174723607534414371449 := by
  apply lucasNat 174723607534414371449 3 174723607534414371448 (by norm_num) (by norm_num) (by norm_num) (by decide)
  apply prime_divisors_step (fun s => powM 256 3 (174723607534414371448 / s) 174723607534414371449 ≠ 1 % 174723607534414371449) prime_2 (by norm_num : (174723607534414371448 : Nat) = 2 * 87361803767207185724) (by decide)
  apply prime_divisors_step (fun s => powM 256 3 (174723607534414371448 / s) 174723607534414371449 ≠ 1 % 174723607534414371449) prime_2 (by norm_num : (87361803767207185724 : Nat) = 2 * 43680901883603592862) (by decide)
  apply prime_divisors_step (fun s => powM 256 3 (174723607534414371448 / s) 174723607534414371449 ≠ 1 % 174723607534414371449) prime_2 (by norm_num : (43680901883603592862 : Nat) = 2 * 21840450941801796431) (by decide)
  apply prime_divisors_step (fun s => powM 256 3 (174723607534414371448 / s) 174723607534414371449 ≠ 1 % 174723607534414371449) prime_17 (by norm_num : (21840450941801796431 : Nat) = 17 * 1284732408341282143) (by decide)
  apply prime_divisors_step (fun s => powM 256 3 (174723607534414371448 / s) 174723607534414371449 ≠ 1 % 174723607534414371449) prime_59 (by norm_num : (1284732408341282143 : Nat) = 59 * 21775125565106477) (by decide)
  apply prime_divisors_step (fun s => powM 256 3 (174723607534414371448 / s) 174723607534414371449 ≠ 1 % 174723607534414371449) prime_4051 (by norm_num : (21775125565106477 : Nat) = 4051 * 5375246992127) (by decide)
  apply prime_divisors_step (fun s => powM 256 3 (174723607534414371448 / s) 174723607534414371449 ≠ 1 % 174723607534414371449) prime_120233 (by norm_num : (5375246992127 : Nat) = 120233 * 44706919) (by decide)
  apply prime_divisors_step (fun s => powM 256 3 (174723607534414371448 / s) 174723607534414371449 ≠ 1 % 174723607534414371449) prime_44706919 (by norm_num : (44706919 : Nat) = 44706919 * 1) (by decide)
  exact prime_divisors_one (fun s => powM 256 3 (174723607534414371448 / s) 174723607534414371449 ≠ 1 % 174723607534414371449)

theorem prime_109 : Nat.Prime 109 := by norm_num

theorem prime_293 : Nat.Prime 293 := by norm_num

theorem prime_2731 : Nat.Prime 2731 := by norm_num

theorem prime_305873 : Nat.Prime 305873 := by
  apply lucasNat 305873 3 305872 (by norm_num) (by norm_num) (by norm_num) (by decide)
  apply prime_divisors_step (fun s => powM 256 3 (305872 / s) 305873 ≠ 1 % 305873) prime_2 (by norm_num : (305872 : Nat) = 2 * 152936) (by decide)
  apply prime_divisors_step (fun s => powM 256 3 (305872 / s) 305873 ≠ 1 % 305873) prime_2 (by norm_num : (152936 : Nat) = 2 * 76468) (by decide)
  apply prime_divisors_step (fun s => powM 256 3 (305872 / s) 305873 ≠ 1 % 305873) prime_2 (by norm_num : (76468 : Nat) = 2 * 38234) (by decide)
  apply prime_divisors_step (fun s => powM 256 3 (305872 / s) 305873 ≠ 1 % 305873) prime_2 (by norm_num : (38234 : Nat) = 2 * 19117) (by decide)
  apply prime_divisors_step (fun s => powM 256 3 (305872 / s) 305873 ≠ 1 % 305873) prime_7 (by norm_num : (19117 : Nat) = 7 * 2731) (by decide)
  apply prime_divisors_step (fun s => powM 256 3 (305872 / s) 305873 ≠ 1 % 305873) prime_2731 (by norm_num : (2731 : Nat) = 2731 * 1) (by decide)
  exact prime_divisors_one (fun s => powM 256 3 (305872 / s) 305873 ≠ 1 % 305873)

theorem prime_41 : Nat.Prime 41 := by norm_num

theorem prime_28181 : Nat.Prime 28181 := by norm_num

theorem prime_545358713 : Nat.Prime 545358713 := by
  apply lucasNat 545358713 5 545358712 (by norm_num) (by norm_num) (by norm_num) (by decide)
  apply prime_divisors_step (fun s => powM 256 5 (545358712 / s) 545358713 ≠ 1 % 545358713) prime_2 (by norm_num : (545358712 : Nat) = 2 * 272679356) (by decide)
  apply prime_divisors_step (fun s => powM 256 5 (545358712 / s) 545358713 ≠ 1 % 545358713) prime_2 (by norm_num : (272679356 : Nat) = 2 * 136339678) (by decide)
  apply prime_divisors_step (fun s => powM 256 5 (545358712 / s) 545358713 ≠ 1 % 545358713) prime_2 (by norm_num : (136339678 : Nat) = 2 * 68169839) (by decide)
  apply prime_divisors_step (fun s => powM 256 5 (545358712 / s) 545358713 ≠ 1 % 545358713) prime_41 (by norm_num : (68169839 : Nat) = 41 * 1662679) (by decide)
  apply prime_divisors_step (fun s => powM 256 5 (545358712 / s) 545358713 ≠ 1 % 545358713) prime_59 (by norm_num : (1662679 : Nat) = 59 * 28181) (by decide)
  apply prime_divisors_step (fun s => powM 256 5 (545358712 / s) 545358713 ≠ 1 % 545358713) prime_28181 (by norm_num : (28181 : Nat) = 28181 * 1) (by decide)
  exact prime_divisors_one (fun s => powM 256 5 (545358712 / s) 545358713 ≠ 1 % 545358713)

theorem prime_461 : Nat.Prime 461 := by norm_num

theorem prime_1871 : Nat.Prime 1871 := by norm_num

theorem prime_1627771 : Nat.Prime 1627771 := by
  apply lucasNat 1627771 3 1627770 (by norm_num) (by norm_num) (by norm_num) (by decide)
  apply prime_divisors_step (fun s => powM 256 3 (1627770 / s) 1627771 ≠ 1 % 1627771) prime_2 (by norm_num : (1627770 : Nat) = 2 * 813885) (by decide)
  apply prime_divisors_step (fun s => powM 256 3 (1627770 / s) 1627771 ≠ 1 % 1627771) prime_3 (by norm_num : (813885 : Nat) = 3 * 271295) (by decide)
  apply prime_divisors_step (fun s => powM 256 3 (1627770 / s) 1627771 ≠ 1 % 1627771) prime_5 (by norm_num : (271295 : Nat) = 5 * 54259) (by decide)
  apply prime_divisors_step (fun s => powM 256 3 (1627770 / s) 1627771 ≠ 1 % 1627771) prime_29 (by norm_num : (54259 : Nat) = 29 * 1871) (by decide)
  apply prime_divisors_step (fun s => powM 256 3 (1627770 / s) 1627771 ≠ 1 % 1627771) prime_1871 (by norm_num : (1871 : Nat) = 1871 * 1) (by decide)
  exact prime_divisors_one (fun s => powM 256 3 (1627770 / s) 1627771 ≠ 1 % 1627771)

theorem prime_297159362677 : Nat.Prime 297159362677 := by
  apply lucasNat 297159362677 2 297159362676 (by norm_num) (by norm_num) (by norm_num) (by decide)
  apply prime_divisors_step (fun s => powM 256 2 (297159362676 / s) 297159362677 ≠ 1 % 297159362677) prime_2 (by norm_num : (297159362676 : Nat) = 2 * 148579681338) (by decide)
  apply prime_divisors_step (fun s => powM 256 2 (297159362676 / s) 297159362677 ≠ 1 % 297159362677) prime_2 (by norm_num : (148579681338 : Nat) = 2 * 74289840669) (by decide)
  apply prime_divisors_step (fun s => powM 256 2 (297159362676 / s) 297159362677 ≠ 1 % 297159362677) prime_3 (by norm_num : (74289840669 : Nat) = 3 * 24763280223) (by decide)
  apply prime_divisors_step (fun s => powM 256 2 (297159362676 / s) 297159362677 ≠ 1 % 297159362677) prime_3 (by norm_num : (24763280223 : Nat) = 3 * 8254426741) (by decide)
  apply prime_divisors_step (fun s => powM 256 2 (297159362676 / s) 297159362677 ≠ 1 % 297159362677) prime_11 (by norm_num : (8254426741 : Nat) = 11 * 750402431) (by decide)
  apply prime_divisors_step (fun s => powM 256 2 (297159362676 / s) 297159362677 ≠ 1 % 297159362677) prime_461 (by norm_num : (750402431 : Nat) = 461 * 1627771) (by decide)
  apply prime_divisors_step (fun s => powM 256 2 (297159362676 / s) 297159362677 ≠ 1 % 297159362677) prime_1627771 (by norm_num : (1627771 : Nat) = 1627771 * 1) (by decide)
  exact prime_divisors_one (fun s => powM 256 2 (297159362676 / s) 297159362677 ≠ 1 % 297159362677)

theorem prime_29047611873442575647497758179 : Nat.Prime 29047611873442575647497758179 := by
  apply lucasNat 29047611873442575647497758179 2 29047611873442575647497758178 (by norm_num) (by norm_num) (by norm_num) (by decide)
  apply prime_divisors_step (fun s => powM 256 2 (29047611873442575647497758178 / s) 29047611873442575647497758179 ≠ 1 % 29047611873442575647497758179) prime_2 (by norm_num : (29047611873442575647497758178 : Nat) = 2 * 14523805936721287823748879089) (by decide)
  apply prime_divisors_step (fun s => powM 256 2 (29047611873442575647497758178 / s) 29047611873442575647497758179 ≠ 1 % 29047611873442575647497758179) prime_293 (by norm_num : (14523805936721287823748879089 : Nat) = 293 * 49569303538297910661258973) (by decide)
  apply prime_divisors_step (fun s => powM 256 2 (29047611873442575647497758178 / s) 29047611873442575647497758179 ≠ 1 % 29047611873442575647497758179) prime_305873 (by norm_num : (49569303538297910661258973 : Nat) = 305873 * 162058447585428954701) (by decide)
  apply prime_divisors_step (fun s => powM 256 2 (29047611873442575647497758178 / s) 29047611873442575647497758179 ≠ 1 % 29047611873442575647497758179) prime_545358713 (by norm_num : (162058447585428954701 : Nat) = 545358713 * 297159362677) (by decide)
  apply prime_divisors_step (fun s => powM 256 2 (29047611873442575647497758178 / s) 29047611873442575647497758179 ≠ 1 % 29047611873442575647497758179) prime_297159362677 (by norm_num : (297159362677 : Nat) = 297159362677 * 1) (by decide)
  exact prime_divisors_one (fun s => powM 256 2 (29047611873442575647497758178 / s) 29047611873442575647497758179 ≠ 1 % 29047611873442575647497758179)

theorem prime_341948486974166000522343609283189 : Nat.Prime 341948486974166000522343609283189 := by
  apply lucasNat 341948486974166000522343609283189 2 341948486974166000522343609283188 (by norm_num) (by norm_num) (by norm_num) (by decide)
  apply prime_divisors_step (fun s => powM 256 2 (341948486974166000522343609283188 / s) 341948486974166000522343609283189 ≠ 1 % 341948486974166000522343609283189) prime_2 (by norm_num : (341948486974166000522343609283188 : Nat) = 2 * 170974243487083000261171804641594) (by decide)
  apply prime_divisors_step (fun s => powM 256 2 (341948486974166000522343609283188 / s) 341948486974166000522343609283189 ≠ 1 % 341948486974166000522343609283189) prime_2 (by norm_num : (170974243487083000261171804641594 : Nat) = 2 * 85487121743541500130585902320797) (by decide)
  apply prime_divisors_step (fun s => powM 256 2 (341948486974166000522343609283188 / s) 341948486974166000522343609283189 ≠ 1 % 341948486974166000522343609283189) prime_3 (by norm_num : (85487121743541500130585902320797 : Nat) = 3 * 28495707247847166710195300773599) (by decide)
  apply prime_divisors_step (fun s => powM 256 2 (341948486974166000522343609283188 / s) 341948486974166000522343609283189 ≠ 1 % 341948486974166000522343609283189) prime_3 (by norm_num : (28495707247847166710195300773599 : Nat) = 3 * 9498569082615722236731766924533) (by decide)
  apply prime_divisors_step (fun s => powM 256 2 (341948486974166000522343609283188 / s) 341948486974166000522343609283189 ≠ 1 % 341948486974166000522343609283189) prime_3 (by norm_num : (9498569082615722236731766924533 : Nat) = 3 * 3166189694205240745577255641511) (by decide)
  apply prime_divisors_step (fun s => powM 256 2 (341948486974166000522343609283188 / s) 341948486974166000522343609283189 ≠ 1 % 341948486974166000522343609283189) prime_109 (by norm_num : (3166189694205240745577255641511 : Nat) = 109 * 29047611873442575647497758179) (by decide)
  apply prime_divisors_step (fun s => powM 256 2 (341948486974166000522343609283188 / s) 341948486974166000522343609283189 ≠ 1 % 341948486974166000522343609283189) prime_29047611873442575647497758179 (by norm_num : (29047611873442575647497758179 : Nat) = 29047611873442575647497758179 * 1) (by decide)
  exact prime_divisors_one (fun s => powM 256 2 (341948486974166000522343609283188 / s) 341948486974166000522343609283189 ≠ 1 % 341948486974166000522343609283189)

theorem prime_115792089237316195423570985008687907852837564279074904382605163141518161494337 : Nat.Prime 115792089237316195423570985008687907852837564279074904382605163141518161494337 := by
  apply lucasNat 115792089237316195423570985008687907852837564279074904382605163141518161494337 7 115792089237316195423570985008687907852837564279074904382605163141518161494336 (by norm_num) (by norm_num) (by norm_num) (by decide)
  apply prime_divisors_step (fun s => powM 256 7 (115792089237316195423570985008687907852837564279074904382605163141518161494336 / s) 115792089237316195423570985008687907852837564279074904382605163141518161494337 ≠ 1 % 115792089237316195423570985008687907852837564279074904382605163141518161494337) prime_2 (by norm_num : (115792089237316195423570985008687907852837564279074904382605163141518161494336 : Nat) = 2 * 57896044618658097711785492504343953926418782139537452191302581570759080747168) (by decide)
  apply prime_divisors_step (fun s => powM 256 7 (115792089237316195423570985008687907852837564279074904382605163141518161494336 / s) 115792089237316195423570985008687907852837564279074904382605163141518161494337 ≠ 1 % 115792089237316195423570985008687907852837564279074904382605163141518161494337) prime_2 (by norm_num : (57896044618658097711785492504343953926418782139537452191302581570759080747168 : Nat) = 2 * 28948022309329048855892746252171976963209391069768726095651290785379540373584) (by decide)
  apply prime_divisors_step (fun s => powM 256 7 (115792089237316195423570985008687907852837564279074904382605163141518161494336 / s) 115792089237316195423570985008687907852837564279074904382605163141518161494337 ≠ 1 % 115792089237316195423570985008687907852837564279074904382605163141518161494337) prime_2 (by norm_num : (28948022309329048855892746252171976963209391069768726095651290785379540373584 : Nat) = 2 * 14474011154664524427946373126085988481604695534884363047825645392689770186792) (by decide)
  apply prime_divisors_step (fun s => powM 256 7 (115792089237316195423570985008687907852837564279074904382605163141518161494336 / s) 115792089237316195423570985008687907852837564279074904382605163141518161494337 ≠ 1 % 115792089237316195423570985008687907852837564279074904382605163141518161494337) prime_2 (by norm_num : (14474011154664524427946373126085988481604695534884363047825645392689770186792 : Nat) = 2 * 7237005577332262213973186563042994240802347767442181523912822696344885093396) (by decide)
  apply prime_divisors_step (fun s => powM 256 7 (115792089237316195423570985008687907852837564279074904382605163141518161494336 / s) 115792089237316195423570985008687907852837564279074904382605163141518161494337 ≠ 1 % 115792089237316195423570985008687907852837564279074904382605163141518161494337) prime_2 (by norm_num : (7237005577332262213973186563042994240802347767442181523912822696344885093396 : Nat) = 2 * 3618502788666131106986593281521497120401173883721090761956411348172442546698) (by decide)
  apply prime_divisors_step (fun s => powM 256 7 (115792089237316195423570985008687907852837564279074904382605163141518161494336 / s) 115792089237316195423570985008687907852837564279074904382605163141518161494337 ≠ 1 % 115792089237316195423570985008687907852837564279074904382605163141518161494337) prime_2 (by norm_num : (3618502788666131106986593281521497120401173883721090761956411348172442546698 : Nat) = 2 * 1809251394333065553493296640760748560200586941860545380978205674086221273349) (by decide)
  apply prime_divisors_step (fun s => powM 256 7 (115792089237316195423570985008687907852837564279074904382605163141518161494336 / s) 115792089237316195423570985008687907852837564279074904382605163141518161494337 ≠ 1 % 115792089237316195423570985008687907852837564279074904382605163141518161494337) prime_3 (by norm_num : (1809251394333065553493296640760748560200586941860545380978205674086221273349 : Nat) = 3 * 603083798111021851164432213586916186733528980620181793659401891362073757783) (by decide)
  apply prime_divisors_step (fun s => powM 256 7 (115792089237316195423570985008687907852837564279074904382605163141518161494336 / s) 115792089237316195423570985008687907852837564279074904382605163141518161494337 ≠ 1 % 115792089237316195423570985008687907852837564279074904382605163141518161494337) prime_149 (by norm_num : (603083798111021851164432213586916186733528980620181793659401891362073757783 : Nat) = 149 * 4047542269201488933989477943536350246533751547786454991002697257463582267) (by decide)
  apply prime_divisors_step (fun s => powM 256 7 (115792089237316195423570985008687907852837564279074904382605163141518161494336 / s) 115792089237316195423570985008687907852837564279074904382605163141518161494337 ≠ 1 % 115792089237316195423570985008687907852837564279074904382605163141518161494337) prime_631 (by norm_num : (4047542269201488933989477943536350246533751547786454991002697257463582267 : Nat) = 631 * 6414488540731361226607730496888035255996436684289152125202372832747357) (by decide)
  apply prime_divisors_step (fun s => powM 256 7 (115792089237316195423570985008687907852837564279074904382605163141518161494336 / s) 115792089237316195423570985008687907852837564279074904382605163141518161494337 ≠ 1 % 115792089237316195423570985008687907852837564279074904382605163141518161494337) prime_107361793816595537 (by norm_num : (6414488540731361226607730496888035255996436684289152125202372832747357 : Nat) = 107361793816595537 * 59746473235060985162263246577491932178200490877270861) (by decide)
  apply prime_divisors_step (fun s => powM 256 7 (115792089237316195423570985008687907852837564279074904382605163141518161494336 / s) 115792089237316195423570985008687907852837564279074904382605163141518161494337 ≠ 1 % 115792089237316195423570985008687907852837564279074904382605163141518161494337) prime_174723607534414371449 (by norm_num : (59746473235060985162263246577491932178200490877270861 : Nat) = 174723607534414371449 * 341948486974166000522343609283189) (by decide)
  apply prime_divisors_step (fun s => powM 256 7 (115792089237316195423570985008687907852837564279074904382605163141518161494336 / s) 115792089237316195423570985008687907852837564279074904382605163141518161494337 ≠ 1 % 115792089237316195423570985008687907852837564279074904382605163141518161494337) prime_341948486974166000522343609283189 (by norm_num : (341948486974166000522343609283189 : Nat) = 341948486974166000522343609283189 * 1) (by decide)
  exact prime_divisors_one (fun s => powM 256 7 (115792089237316195423570985008687907852837564279074904382605163141518161494336 / s) 115792089237316195423570985008687907852837564279074904382605163141518161494337 ≠ 1 % 115792089237316195423570985008687907852837564279074904382605163141518161494337)

end DLCOracle

namespace DLCOracle

/-! ### secp256k1 domain parameters (btcec `S256()`) -/

/-- The secp256k1 field prime `2^256 - 2^32 - 977` (btcec `curve.P`). -/
def secpP : Nat := 115792089237316195423570985008687907853269984665640564039457584007908834671663

/-- The secp256k1 group order (btcec `curve.N`). -/
def secpN : Nat := 115792089237316195423570985008687907852837564279074904382605163141518161494337

/-- X coordinate of the base point `G` (btcec `curve.Gx`). -/
def secpGx : Nat := 55066263022277343669578718895168534326250603453777594175500187360389116729240

/-- Y coordinate of the base point `G` (btcec `curve.Gy`). -/
def secpGy : Nat := 32670510020758816978083085130507043184471273380659243275938904335757337482424

theorem secpP_prime : Nat.Prime secpP :=
  prime_115792089237316195423570985008687907853269984665640564039457584007908834671663

theorem secpN_prime : Nat.Prime secpN :=
  prime_115792089237316195423570985008687907852837564279074904382605163141518161494337

instance : Fact (Nat.Prime secpP) := ⟨secpP_prime⟩

instance : Fact (Nat.Prime secpN) := ⟨secpN_prime⟩

/-- The secp256k1 base field. -/
abbrev Fp := ZMod secpP

/-! ### Executable field arithmetic on `Nat` (btcec big.Int arithmetic mod P) -/

/-- Field multiplication. -/
def fMul (a b : Nat) : Nat := a * b % secpP

/-- Field addition. -/
def fAdd (a b : Nat) : Nat := (a + b) % secpP

/-- Field subtraction. -/
def fSub (a b : Nat) : Nat := (a % secpP + (secpP - b % secpP)) % secpP

/-- Field inversion by Fermat's little theorem (btcec inverts with big.Int
`ModInverse`; the two agree on the field). -/
def fInv (a : Nat) : Nat := powM 257 a (secpP - 2) secpP

theorem cast_fMul (a b : Nat) : ((fMul a b : Nat) : Fp) = (a : Fp) * b := by
  rw [fMul, ZMod.natCast_mod]; push_cast; ring

theorem cast_fAdd (a b : Nat) : ((fAdd a b : Nat) : Fp) = (a : Fp) + b := by
  rw [fAdd, ZMod.natCast_mod]; push_cast; ring

theorem cast_fSub (a b : Nat) : ((fSub a b : Nat) : Fp) = (a : Fp) - b := by
  rw [fSub, ZMod.natCast_mod]
  have hble : b % secpP ≤ secpP := le_of_lt (Nat.mod_lt _ (by norm_num [secpP]))
  rw [Nat.cast_add, Nat.cast_sub hble, ZMod.natCast_self, ZMod.natCast_mod, ZMod.natCast_mod]
  ring

theorem fp_pow_card_sub_two (a : Fp) : a ^ (secpP - 2) = a⁻¹ := by
  by_cases ha : a = 0
  · rw [ha, inv_zero]
    exact zero_pow (by norm_num [secpP])
  · have h1 : a ^ (secpP - 2) * a = 1 := by
      have h2 : secpP - 2 + 1 = secpP - 1 := by norm_num [secpP]
      have : a ^ (secpP - 2) * a = a ^ (secpP - 1) := by
        rw [← pow_succ, h2]
      rw [this]
      exact ZMod.pow_card_sub_one_eq_one ha
    exact eq_inv_of_mul_eq_one_left h1

theorem cast_fInv (a : Nat) : ((fInv a : Nat) : Fp) = (a : Fp)⁻¹ := by
  rw [fInv, powM_cast 257 a _ (by norm_num [secpP]), fp_pow_card_sub_two]

/-! ### Executable affine point arithmetic

`Pt` is the embedding of a btcec point: `none` is the point at infinity
(which btcec's Jacobian-to-affine conversion materialises as the pair
(0, 0)); `some (x, y)` is an affine point with reduced coordinates.
`pAdd` is btcec `curve.Add`, `smul` is btcec `curve.ScalarMult` /
`ScalarBaseMult` (embedded at the level of the group operation those
Jacobian-coordinate routines implement). -/

/-- Embedded btcec point. -/
abbrev Pt := Option (Nat × Nat)

/-- Embedded btcec `curve.Add` (affine group law; secant/tangent formulas). -/
def pAdd : Pt → Pt → Pt
  | none, q => q
  | p, none => p
  | some (x₁, y₁), some (x₂, y₂) =>
    if x₁ = x₂ ∧ (y₁ + y₂) % secpP = 0 then none
    else
      let L := if x₁ = x₂ then fMul (fMul 3 (fMul x₁ x₁)) (fInv (fAdd y₁ y₁))
               else fMul (fSub y₁ y₂) (fInv (fSub x₁ x₂))
      let x₃ := fSub (fSub (fMul L L) x₁) x₂
      some (x₃, fSub (fMul L (fSub x₁ x₃)) y₁)

/-- Double-and-add loop for scalar multiplication, fuel-recursive. -/
def smulGo : Nat → Nat → Pt → Pt
  | 0, _, _ => none
  | fuel+1, k, base =>
    if k = 0 then none
    else
      let r := smulGo fuel (k / 2) (pAdd base base)
      if k % 2 = 1 then pAdd base r else r

/-- Embedded btcec scalar multiplication (works for any scalar < 2^257). -/
def smul (k : Nat) (A : Pt) : Pt := smulGo 257 k A

/-- The embedded base point `G`. -/
def Gpt : Pt := some (secpGx, secpGy)

/-- Embedded point negation as performed by `ComputeSignaturePubKey`
(`A.Y.Neg(A.Y); A.Y.Mod(A.Y, curve.P)`). -/
def ptNeg : Pt → Pt :=
  Option.map fun xy => (xy.1, (secpP - xy.2 % secpP) % secpP)

/-- X coordinate of an embedded point; the point at infinity reads as 0,
matching btcec's affine (0, 0) representation of it. -/
def ptX : Pt → Nat
  | none => 0
  | some xy => xy.1

/-- Validity of an embedded point: reduced coordinates satisfying the curve
equation. -/
def onCurve : Pt → Prop
  | none => True
  | some (x, y) => x < secpP ∧ y < secpP ∧ y * y % secpP = (x * x * x + 7) % secpP

instance decOnCurve : (A : Pt) → Decidable (onCurve A)
  | none => .isTrue trivial
  | some (_, _) => inferInstanceAs (Decidable (_ ∧ _ ∧ _))

end DLCOracle

namespace DLCOracle

/-! ### Bridge to Mathlib's Weierstrass curve group -/

/-- secp256k1 as a Mathlib Weierstrass curve: `y² = x³ + 7` over `Fp`. -/
def W : WeierstrassCurve.Affine Fp :=
  { a₁ := 0, a₂ := 0, a₃ := 0, a₄ := 0, a₆ := 7 }

theorem W_delta_ne_zero : W.Δ ≠ 0 := by
  intro h
  have hΔ : W.Δ = -21168 := by
    simp [W, WeierstrassCurve.Δ, WeierstrassCurve.b₂, WeierstrassCurve.b₄,
      WeierstrassCurve.b₆, WeierstrassCurve.b₈]
    norm_num
  rw [hΔ] at h
  have h2 : ((21168 : Nat) : Fp) = 0 := by
    have := neg_eq_zero.mp h
    rwa [show ((21168 : Nat) : Fp) = (21168 : Fp) by push_cast; rfl]
  rw [ZMod.natCast_zmod_eq_zero_iff_dvd] at h2
  have := Nat.le_of_dvd (by norm_num) h2
  norm_num [secpP] at this

theorem W_equation_iff (x y : Fp) : W.Equation x y ↔ y ^ 2 = x ^ 3 + 7 := by
  rw [WeierstrassCurve.Affine.equation_iff]
  simp [W]

theorem W_negY (x y : Fp) : W.negY x y = -y := by
  simp [WeierstrassCurve.Affine.negY, W]

theorem natCast_fp_inj {a b : Nat} (ha : a < secpP) (hb : b < secpP)
    (h : (a : Fp) = b) : a = b := by
  have := congrArg ZMod.val h
  rwa [ZMod.val_cast_of_lt ha, ZMod.val_cast_of_lt hb] at this

theorem add_mod_eq_zero_iff (y₁ y₂ : Nat) :
    (y₁ + y₂) % secpP = 0 ↔ (y₁ : Fp) = -(y₂ : Fp) := by
  constructor
  · intro h
    have h0 : ((y₁ + y₂ : Nat) : Fp) = 0 := by
      rw [← ZMod.natCast_mod, h, Nat.cast_zero]
    push_cast at h0
    exact eq_neg_of_add_eq_zero_left h0
  · intro h
    have h0 : ((y₁ + y₂ : Nat) : Fp) = 0 := by push_cast; rw [h]; ring
    rw [ZMod.natCast_zmod_eq_zero_iff_dvd] at h0
    exact (Nat.mod_eq_zero_of_dvd h0)

theorem onCurve_equation {x y : Nat} (h : onCurve (some (x, y))) :
    W.Equation (x : Fp) (y : Fp) := by
  obtain ⟨hx, hy, heq⟩ := h
  rw [W_equation_iff]
  have hc : ((y * y % secpP : Nat) : Fp) = ((x * x * x + 7) % secpP : Nat) :=
    congrArg _ heq
  rw [ZMod.natCast_mod, ZMod.natCast_mod] at hc
  push_cast at hc
  linear_combination hc

theorem equation_to_onCurve {x y : Nat} (hx : x < secpP) (hy : y < secpP)
    (h : W.Equation (x : Fp) (y : Fp)) : onCurve (some (x, y)) := by
  refine ⟨hx, hy, ?_⟩
  rw [W_equation_iff] at h
  have hcst : ((y * y % secpP : Nat) : Fp) = ((x * x * x + 7) % secpP : Nat) := by
    rw [ZMod.natCast_mod, ZMod.natCast_mod]
    push_cast
    linear_combination h
  exact natCast_fp_inj (Nat.mod_lt _ (by norm_num [secpP]))
    (Nat.mod_lt _ (by norm_num [secpP])) hcst

theorem onCurve_nonsingular {x y : Nat} (h : onCurve (some (x, y))) :
    W.Nonsingular (x : Fp) (y : Fp) :=
  W.nonsingular_of_Δ_ne_zero (onCurve_equation h) W_delta_ne_zero

/-- Lift of a valid embedded point to Mathlib's group of nonsingular points. -/
def liftPt : (A : Pt) → onCurve A → W.Point
  | none, _ => 0
  | some (_, _), h => WeierstrassCurve.Affine.Point.some (onCurve_nonsingular h)

theorem point_some_congr {x y u v : Fp} (h : W.Nonsingular x y) (h' : W.Nonsingular u v)
    (hx : x = u) (hy : y = v) :
    WeierstrassCurve.Affine.Point.some h = WeierstrassCurve.Affine.Point.some h' := by
  subst hx
  subst hy
  rfl

theorem fMul_lt (a b : Nat) : fMul a b < secpP := Nat.mod_lt _ (by norm_num [secpP])

theorem fAdd_lt (a b : Nat) : fAdd a b < secpP := Nat.mod_lt _ (by norm_num [secpP])

theorem fSub_lt (a b : Nat) : fSub a b < secpP := Nat.mod_lt _ (by norm_num [secpP])

end DLCOracle

namespace DLCOracle

theorem liftPt_congr {A B : Pt} (h : A = B) (hA : onCurve A) (hB : onCurve B) :
    liftPt A hA = liftPt B hB := by
  subst h
  rfl

/-- Core computation: the affine secant/tangent formulas used by `pAdd`
land on Mathlib's `addX`/`addY`, hence realize the group addition. -/
theorem pAdd_some_lift {x₁ y₁ x₂ y₂ L x₃ y₃ : Nat}
    (hA : onCurve (some (x₁, y₁))) (hB : onCurve (some (x₂, y₂)))
    (hxy : (x₁ : Fp) = x₂ → (y₁ : Fp) ≠ W.negY x₂ y₂)
    (hL : (L : Fp) = W.slope x₁ x₂ y₁ y₂)
    (hx₃ : x₃ = fSub (fSub (fMul L L) x₁) x₂)
    (hy₃ : y₃ = fSub (fMul L (fSub x₁ x₃)) y₁) :
    ∃ hC : onCurve (some (x₃, y₃)),
      liftPt (some (x₃, y₃)) hC = liftPt (some (x₁, y₁)) hA + liftPt (some (x₂, y₂)) hB := by
  have hxx : (x₃ : Fp) = W.addX x₁ x₂ (W.slope x₁ x₂ y₁ y₂) := by
    rw [hx₃, cast_fSub, cast_fSub, cast_fMul, hL]
    simp only [WeierstrassCurve.Affine.addX, W]
    ring
  have hyy : (y₃ : Fp) = W.addY x₁ x₂ y₁ (W.slope x₁ x₂ y₁ y₂) := by
    rw [hy₃, cast_fSub, cast_fMul, cast_fSub, hxx, hL]
    simp only [WeierstrassCurve.Affine.addY, WeierstrassCurve.Affine.negAddY,
      WeierstrassCurve.Affine.negY, W]
    ring
  have hns₃ := WeierstrassCurve.Affine.nonsingular_add (onCurve_nonsingular hA)
    (onCurve_nonsingular hB) hxy
  have heq₃ : W.Equation (x₃ : Fp) (y₃ : Fp) := by
    rw [hxx, hyy]
    exact hns₃.1
  have hC : onCurve (some (x₃, y₃)) := by
    rw [hx₃, hy₃] at heq₃ ⊢
    exact equation_to_onCurve (fSub_lt _ _) (fSub_lt _ _) heq₃
  refine ⟨hC, ?_⟩
  show WeierstrassCurve.Affine.Point.some (onCurve_nonsingular hC) =
    WeierstrassCurve.Affine.Point.some (onCurve_nonsingular hA) +
      WeierstrassCurve.Affine.Point.some (onCurve_nonsingular hB)
  rw [WeierstrassCurve.Affine.Point.add_of_imp hxy]
  exact point_some_congr _ _ hxx hyy

theorem pAdd_none_left (B : Pt) : pAdd none B = B := by
  cases B <;> rfl

theorem pAdd_none_right (A : Pt) : pAdd A none = A := by
  cases A <;> rfl

theorem liftPt_pAdd {A B : Pt} (hA : onCurve A) (hB : onCurve B) :
    ∃ hAB : onCurve (pAdd A B),
      liftPt (pAdd A B) hAB = liftPt A hA + liftPt B hB := by
  cases A with
  | none =>
    have h : pAdd none B = B := pAdd_none_left B
    have hon : onCurve (pAdd none B) := by rw [h]; exact hB
    refine ⟨hon, ?_⟩
    rw [liftPt_congr h hon hB]
    exact (zero_add _).symm
  | some p =>
    cases B with
    | none =>
      have h : pAdd (some p) none = some p := pAdd_none_right _
      have hon : onCurve (pAdd (some p) none) := by rw [h]; exact hA
      refine ⟨hon, ?_⟩
      rw [liftPt_congr h hon hA]
      exact (add_zero _).symm
    | some q =>
      obtain ⟨x₁, y₁⟩ := p
      obtain ⟨x₂, y₂⟩ := q
      obtain ⟨hx₁, hy₁, he₁⟩ := id hA
      obtain ⟨hx₂, hy₂, he₂⟩ := id hB
      by_cases hc : x₁ = x₂ ∧ (y₁ + y₂) % secpP = 0
      · have hpadd : pAdd (some (x₁, y₁)) (some (x₂, y₂)) = none := by
          simp only [pAdd, if_pos hc]
        have hon : onCurve (pAdd (some (x₁, y₁)) (some (x₂, y₂))) := by
          rw [hpadd]
          trivial
        refine ⟨hon, ?_⟩
        rw [liftPt_congr hpadd hon trivial]
        have hxe : (x₁ : Fp) = x₂ := congrArg _ hc.1
        have hye : (y₁ : Fp) = W.negY x₂ y₂ := by
          rw [W_negY]
          exact (add_mod_eq_zero_iff _ _).mp hc.2
        exact (WeierstrassCurve.Affine.Point.add_of_Y_eq hxe hye).symm
      · have hxy : (x₁ : Fp) = x₂ → (y₁ : Fp) ≠ W.negY x₂ y₂ := by
          intro hxe hye
          apply hc
          refine ⟨natCast_fp_inj hx₁ hx₂ hxe, ?_⟩
          rw [W_negY] at hye
          exact (add_mod_eq_zero_iff _ _).mpr hye
        have hL : ((if x₁ = x₂ then fMul (fMul 3 (fMul x₁ x₁)) (fInv (fAdd y₁ y₁))
            else fMul (fSub y₁ y₂) (fInv (fSub x₁ x₂)) : Nat) : Fp)
            = W.slope x₁ x₂ y₁ y₂ := by
          by_cases hxe : x₁ = x₂
          · rw [if_pos hxe]
            have hxec : (x₁ : Fp) = x₂ := congrArg _ hxe
            rw [WeierstrassCurve.Affine.slope_of_Y_ne hxec (hxy hxec)]
            rw [cast_fMul, cast_fMul, cast_fMul, cast_fInv, cast_fAdd, W_negY]
            simp only [W]
            rw [div_eq_mul_inv]
            ring_nf
          · rw [if_neg hxe]
            have hxec : (x₁ : Fp) ≠ x₂ := fun h => hxe (natCast_fp_inj hx₁ hx₂ h)
            rw [WeierstrassCurve.Affine.slope_of_X_ne hxec]
            rw [cast_fMul, cast_fSub, cast_fInv, cast_fSub]
            rw [div_eq_mul_inv]
        have hpadd : pAdd (some (x₁, y₁)) (some (x₂, y₂)) =
            some (fSub (fSub (fMul (if x₁ = x₂ then fMul (fMul 3 (fMul x₁ x₁)) (fInv (fAdd y₁ y₁))
                    else fMul (fSub y₁ y₂) (fInv (fSub x₁ x₂)))
                  (if x₁ = x₂ then fMul (fMul 3 (fMul x₁ x₁)) (fInv (fAdd y₁ y₁))
                    else fMul (fSub y₁ y₂) (fInv (fSub x₁ x₂)))) x₁) x₂,
              fSub (fMul (if x₁ = x₂ then fMul (fMul 3 (fMul x₁ x₁)) (fInv (fAdd y₁ y₁))
                    else fMul (fSub y₁ y₂) (fInv (fSub x₁ x₂)))
                (fSub x₁ (fSub (fSub (fMul (if x₁ = x₂ then fMul (fMul 3 (fMul x₁ x₁)) (fInv (fAdd y₁ y₁))
                    else fMul (fSub y₁ y₂) (fInv (fSub x₁ x₂)))
                  (if x₁ = x₂ then fMul (fMul 3 (fMul x₁ x₁)) (fInv (fAdd y₁ y₁))
                    else fMul (fSub y₁ y₂) (fInv (fSub x₁ x₂)))) x₁) x₂))) y₁) := by
          simp only [pAdd, if_neg hc]
        obtain ⟨hC, hlift⟩ := pAdd_some_lift hA hB hxy hL rfl rfl
        have hon : onCurve (pAdd (some (x₁, y₁)) (some (x₂, y₂))) := by
          rw [hpadd]
          exact hC
        refine ⟨hon, ?_⟩
        rw [liftPt_congr hpadd hon hC]
        exact hlift

end DLCOracle

namespace DLCOracle

theorem ptNeg_some (x y : Nat) :
    ptNeg (some (x, y)) = some (x, (secpP - y % secpP) % secpP) := rfl

theorem liftPt_ptNeg {A : Pt} (hA : onCurve A) :
    ∃ h' : onCurve (ptNeg A), liftPt (ptNeg A) h' = -(liftPt A hA) := by
  cases A with
  | none => exact ⟨trivial, neg_zero.symm⟩
  | some p =>
    obtain ⟨x, y⟩ := p
    obtain ⟨hx, hy, he⟩ := id hA
    have hylt : (secpP - y % secpP) % secpP < secpP := Nat.mod_lt _ (by norm_num [secpP])
    have hyc : (((secpP - y % secpP) % secpP : Nat) : Fp) = -(y : Fp) := by
      rw [ZMod.natCast_mod,
        Nat.cast_sub (le_of_lt (Nat.mod_lt _ (by norm_num [secpP]))),
        ZMod.natCast_self, ZMod.natCast_mod]
      ring
    have h1 := WeierstrassCurve.Affine.equation_neg (onCurve_equation hA)
    rw [W_negY] at h1
    have heq : W.Equation (x : Fp) (((secpP - y % secpP) % secpP : Nat) : Fp) := by
      rw [hyc]
      exact h1
    have hC : onCurve (ptNeg (some (x, y))) := by
      rw [ptNeg_some]
      exact equation_to_onCurve hx hylt heq
    refine ⟨hC, ?_⟩
    show WeierstrassCurve.Affine.Point.some _ = -WeierstrassCurve.Affine.Point.some _
    rw [WeierstrassCurve.Affine.Point.neg_some]
    exact point_some_congr _ _ rfl (by rw [hyc, W_negY])

theorem smulGo_lift (fuel : Nat) : ∀ (k : Nat) (A : Pt) (hA : onCurve A), k < 2 ^ fuel →
    ∃ h : onCurve (smulGo fuel k A), liftPt (smulGo fuel k A) h = k • liftPt A hA := by
  induction fuel with
  | zero =>
    intro k A hA hk
    interval_cases k
    exact ⟨trivial, by rw [zero_nsmul]; rfl⟩
  | succ fuel ih =>
    intro k A hA hk
    by_cases hk0 : k = 0
    · subst hk0
      have hgo : smulGo (fuel + 1) 0 A = none := by simp [smulGo]
      have hon : onCurve (smulGo (fuel + 1) 0 A) := by rw [hgo]; trivial
      refine ⟨hon, ?_⟩
      rw [liftPt_congr hgo hon trivial, zero_nsmul]
      rfl
    · obtain ⟨hAA, hliftAA⟩ := liftPt_pAdd hA hA
      have hk2 : k / 2 < 2 ^ fuel := by rw [pow_succ] at hk; omega
      obtain ⟨hr, hliftr⟩ := ih (k / 2) (pAdd A A) hAA hk2
      have hrval : liftPt _ hr = (k / 2) • (liftPt A hA + liftPt A hA) := by
        rw [hliftr, hliftAA]
      have key : (k / 2) • (liftPt A hA + liftPt A hA) = (2 * (k / 2)) • liftPt A hA := by
        rw [← two_nsmul, smul_smul, mul_comm]
      by_cases hodd : k % 2 = 1
      · have hgo : smulGo (fuel + 1) k A = pAdd A (smulGo fuel (k / 2) (pAdd A A)) := by
          simp only [smulGo, if_neg hk0, if_pos hodd]
        obtain ⟨hfin, hliftfin⟩ := liftPt_pAdd hA hr
        have hon : onCurve (smulGo (fuel + 1) k A) := by rw [hgo]; exact hfin
        refine ⟨hon, ?_⟩
        rw [liftPt_congr hgo hon hfin, hliftfin, hrval, key]
        have hk' : k = 2 * (k / 2) + 1 := by omega
        conv_rhs => rw [hk']
        rw [add_nsmul, one_nsmul, add_comm]
      · have hgo : smulGo (fuel + 1) k A = smulGo fuel (k / 2) (pAdd A A) := by
          simp only [smulGo, if_neg hk0, if_neg hodd]
        have hon : onCurve (smulGo (fuel + 1) k A) := by rw [hgo]; exact hr
        refine ⟨hon, ?_⟩
        rw [liftPt_congr hgo hon hr, hrval, key]
        have hk' : 2 * (k / 2) = k := by omega
        rw [hk']

theorem liftPt_inj {A B : Pt} (hA : onCurve A) (hB : onCurve B)
    (h : liftPt A hA = liftPt B hB) : A = B := by
  cases A with
  | none =>
    cases B with
    | none => rfl
    | some q =>
      obtain ⟨x, y⟩ := q
      exact absurd h.symm (WeierstrassCurve.Affine.Point.some_ne_zero _)
  | some p =>
    cases B with
    | none =>
      obtain ⟨x, y⟩ := p
      exact absurd h (WeierstrassCurve.Affine.Point.some_ne_zero _)
    | some q =>
      obtain ⟨x₁, y₁⟩ := p
      obtain ⟨x₂, y₂⟩ := q
      obtain ⟨hx₁, hy₁, he₁⟩ := id hA
      obtain ⟨hx₂, hy₂, he₂⟩ := id hB
      injection h with h1 h2
      have ex : x₁ = x₂ := natCast_fp_inj hx₁ hx₂ h1
      have ey : y₁ = y₂ := natCast_fp_inj hy₁ hy₂ h2
      rw [ex, ey]

theorem onCurve_Gpt : onCurve Gpt := by decide

/-- The embedded base point, lifted to the Mathlib group. -/
def GP : W.Point := liftPt Gpt onCurve_Gpt

theorem smul_lift (k : Nat) (A : Pt) (hA : onCurve A) (hk : k < 2 ^ 257) :
    ∃ h : onCurve (smul k A), liftPt (smul k A) h = k • liftPt A hA :=
  smulGo_lift 257 k A hA hk

end DLCOracle

namespace DLCOracle

/-- `N · G` is the point at infinity: kernel-checked evaluation of the
embedded scalar multiplication at the group order. -/
theorem smul_secpN_Gpt : smul secpN Gpt = none := by decide

attribute [irreducible] smulGo

theorem lift_Gpt_eq_GP : liftPt Gpt onCurve_Gpt = GP := rfl

theorem nsmul_secpN_GP : secpN • GP = 0 := by
  obtain ⟨h, hl⟩ := smul_lift secpN Gpt onCurve_Gpt (by norm_num [secpN])
  rw [lift_Gpt_eq_GP] at hl
  have h2 : liftPt (smul secpN Gpt) h = liftPt none trivial :=
    liftPt_congr smul_secpN_Gpt h trivial
  exact hl.symm.trans h2

theorem GP_ne_zero : GP ≠ 0 :=
  WeierstrassCurve.Affine.Point.some_ne_zero _

theorem addOrderOf_GP : addOrderOf GP = secpN := by
  have hdvd : addOrderOf GP ∣ secpN :=
    addOrderOf_dvd_iff_nsmul_eq_zero.mpr nsmul_secpN_GP
  rcases Nat.Prime.eq_one_or_self_of_dvd secpN_prime _ hdvd with h1 | h
  · exact absurd (AddMonoid.addOrderOf_eq_one_iff.mp h1) GP_ne_zero
  · exact h

theorem smul_Gpt_mod (k : Nat) (hk : k < 2 ^ 257) :
    smul k Gpt = smul (k % secpN) Gpt := by
  obtain ⟨h1, hl1⟩ := smul_lift k Gpt onCurve_Gpt hk
  obtain ⟨h2, hl2⟩ := smul_lift (k % secpN) Gpt onCurve_Gpt
    (lt_trans (Nat.mod_lt _ (by norm_num [secpN])) (by norm_num [secpN]))
  apply liftPt_inj h1 h2
  rw [hl1, hl2, lift_Gpt_eq_GP]
  conv_lhs => rw [show k = secpN * (k / secpN) + k % secpN from (Nat.div_add_mod k secpN).symm]
  rw [add_nsmul, mul_comm, ← smul_smul, nsmul_secpN_GP, nsmul_zero, zero_add]

theorem smul_Gpt_ne_none {k : Nat} (h0 : 0 < k) (hN : k < secpN) : smul k Gpt ≠ none := by
  intro hnone
  obtain ⟨h1, hl1⟩ := smul_lift k Gpt onCurve_Gpt (lt_trans hN (by norm_num [secpN]))
  rw [liftPt_congr hnone h1 trivial] at hl1
  have hdvd : addOrderOf GP ∣ k := addOrderOf_dvd_iff_nsmul_eq_zero.mpr hl1.symm
  rw [addOrderOf_GP] at hdvd
  have := Nat.le_of_dvd h0 hdvd
  omega

end DLCOracle

namespace DLCOracle

/-! ### SHA-256 (the hash behind `chainhash.HashB`)

`chainhash.HashB(b)` is a single SHA-256 of `b`.  The implementation below
follows FIPS 180-4 on byte lists, with 32-bit words as `Nat` values kept
below `2^32` by explicit reduction. -/

/-- 32-bit rotate right. -/
def rotr (n x : Nat) : Nat := (x / 2 ^ n + x % 2 ^ n * 2 ^ (32 - n)) % 4294967296

/-- SHA-256 Σ₀. -/
def bsig0 (x : Nat) : Nat := rotr 2 x ^^^ rotr 13 x ^^^ rotr 22 x

/-- SHA-256 Σ₁. -/
def bsig1 (x : Nat) : Nat := rotr 6 x ^^^ rotr 11 x ^^^ rotr 25 x

/-- SHA-256 σ₀. -/
def ssig0 (x : Nat) : Nat := rotr 7 x ^^^ rotr 18 x ^^^ (x >>> 3)

/-- SHA-256 σ₁. -/
def ssig1 (x : Nat) : Nat := rotr 17 x ^^^ rotr 19 x ^^^ (x >>> 10)

/-- SHA-256 Ch. -/
def ch (x y z : Nat) : Nat := (x &&& y) ^^^ ((x ^^^ 4294967295) &&& z)

/-- SHA-256 Maj. -/
def maj (x y z : Nat) : Nat := (x &&& y) ^^^ (x &&& z) ^^^ (y &&& z)

/-- SHA-256 round constants. -/
def K256 : List Nat :=
  [1116352408, 1899447441, 3049323471, 3921009573, 961987163, 1508970993,
   2453635748, 2870763221, 3624381080, 310598401, 607225278, 1426881987,
   1925078388, 2162078206, 2614888103, 3248222580, 3835390401, 4022224774,
   264347078, 604807628, 770255983, 1249150122, 1555081692, 1996064986,
   2554220882, 2821834349, 2952996808, 3210313671, 3336571891, 3584528711,
   113926993, 338241895, 666307205, 773529912, 1294757372, 1396182291,
   1695183700, 1986661051, 2177026350, 2456956037, 2730485921, 2820302411,
   3259730800, 3345764771, 3516065817, 3600352804, 4094571909, 275423344,
   430227734, 506948616, 659060556, 883997877, 958139571, 1322822218,
   1537002063, 1747873779, 1955562222, 2024104815, 2227730452, 2361852424,
   2428436474, 2756734187, 3204031479, 3329325298]

/-- SHA-256 initial state. -/
def H256 : List Nat :=
  [1779033703, 3144134277, 1013904242, 2773480762, 1359893119, 2600822924,
   528734635, 1541459225]

/-- Big-endian encoding of a 64-bit value (used in the SHA-256 length
padding and by `binary.Write` with `uint64`). -/
def be64 (v : Nat) : List Nat :=
  [v / 2 ^ 56 % 256, v / 2 ^ 48 % 256, v / 2 ^ 40 % 256, v / 2 ^ 32 % 256,
   v / 2 ^ 24 % 256, v / 2 ^ 16 % 256, v / 2 ^ 8 % 256, v % 256]

/-- SHA-256 message padding. -/
def padMsg (m : List Nat) : List Nat :=
  m ++ 128 :: List.replicate ((64 - (m.length + 9) % 64) % 64) 0 ++ be64 (8 * m.length)

/-- Split a byte list into 64-byte chunks (fuel-recursive). -/
def chunks64 : Nat → List Nat → List (List Nat)
  | 0, _ => []
  | fuel+1, l => if l = [] then [] else l.take 64 :: chunks64 fuel (l.drop 64)

/-- Split a 64-byte chunk into 16 big-endian 32-bit words (fuel-recursive). -/
def words16 : Nat → List Nat → List Nat
  | 0, _ => []
  | fuel+1, l => if l = [] then [] else fromBytesBE (l.take 4) :: words16 fuel (l.drop 4)

/-- Extend 16 words to the 64-word message schedule. -/
def sched : Nat → List Nat → List Nat
  | 0, w => w
  | fuel+1, w =>
    sched fuel (w ++ [(ssig1 (w.getD (w.length - 2) 0) + w.getD (w.length - 7) 0 +
      ssig0 (w.getD (w.length - 15) 0) + w.getD (w.length - 16) 0) % 4294967296])

/-- One SHA-256 compression round; the state is the 8-word list. -/
def sha256Round (st : List Nat) (kw : Nat) : List Nat :=
  match st with
  | [a, b, c, d, e, f, g, h] =>
    let t1 := (h + bsig1 e + ch e f g + kw) % 4294967296
    let t2 := (bsig0 a + maj a b c) % 4294967296
    [(t1 + t2) % 4294967296, a, b, c, (d + t1) % 4294967296, e, f, g]
  | _ => st

/-- Process one 64-byte block. -/
def sha256Block (st : List Nat) (block : List Nat) : List Nat :=
  let w := sched 48 (words16 17 block)
  let st' := (List.zipWith (fun k wt => (k + wt) % 4294967296) K256 w).foldl sha256Round st
  List.zipWith (fun a b => (a + b) % 4294967296) st st'

/-- Big-endian encoding of a 32-bit word. -/
def be32 (v : Nat) : List Nat :=
  [v / 2 ^ 24 % 256, v / 2 ^ 16 % 256, v / 2 ^ 8 % 256, v % 256]

/-- SHA-256 of a byte list. -/
def sha256 (m : List Nat) : List Nat :=
  let padded := padMsg m
  let final := (chunks64 (padded.length + 1) padded).foldl sha256Block H256
  final.foldr (fun wd acc => be32 wd ++ acc) []

/-- `chainhash.HashB`: a single SHA-256. -/
def HashB (m : List Nat) : List Nat := sha256 m

/-- FIPS 180-4 test vector: SHA-256 of the empty string. -/
theorem sha256_empty :
    sha256 [] = [0xe3, 0xb0, 0xc4, 0x42, 0x98, 0xfc, 0x1c, 0x14, 0x9a, 0xfb,
      0xf4, 0xc8, 0x99, 0x6f, 0xb9, 0x24, 0x27, 0xae, 0x41, 0xe4, 0x64, 0x9b,
      0x93, 0x4c, 0xa4, 0x95, 0x99, 0x1b, 0x78, 0x52, 0xb8, 0x55] := by decide

/-- FIPS 180-4 test vector: SHA-256 of `"abc"`. -/
theorem sha256_abc :
    sha256 [0x61, 0x62, 0x63] = [0xba, 0x78, 0x16, 0xbf, 0x8f, 0x01, 0xcf,
      0xea, 0x41, 0x41, 0x40, 0xde, 0x5d, 0xae, 0x22, 0x23, 0xb0, 0x03, 0x61,
      0xa3, 0x96, 0x17, 0x7a, 0x9c, 0xb4, 0x10, 0xff, 0x61, 0xf2, 0x00, 0x15,
      0xad] := by decide

end DLCOracle

namespace DLCOracle

/-! ### Embedding of the repository functions (package `dlcoracle`)

Error values are modelled by an inductive with one constructor per
`return`-with-error site (`fmt.Errorf` messages in the Go source), plus one
constructor for errors propagated out of `btcec.ParsePubKey`. -/

inductive GoError
  | privScalarZero        -- "priv scalar is zero"
  | privScalarOutOfBounds -- "priv scalar is out of bounds"
  | kScalarZero           -- "k scalar is zero"
  | kScalarOutOfBounds    -- "k scalar is out of bounds"
  | hashTooBig            -- "hash of (m, R) too big" / "hash of (msg, pubR) too big"
  | sigSZero              -- "sig s %v is zero"
  | pubKeyParse           -- error propagated from btcec.ParsePubKey
deriving DecidableEq

/-- `GenerateNumericMessage`: three zero `uint64` writes followed by the
big-endian value (`binary.Write` with `binary.BigEndian`). -/
def GenerateNumericMessage (value : Nat) : List Nat :=
  be64 0 ++ (be64 0 ++ (be64 0 ++ be64 value))

/-- btcec `(*PublicKey).SerializeCompressed`: parity prefix then 32-byte
padded X.  The point at infinity comes out of btcec as the affine pair
(0, 0), serializing to `0x02` followed by 32 zero bytes. -/
def serializeCompressed : Pt → List Nat
  | none => 2 :: List.replicate 32 0
  | some (x, y) => (if y % 2 = 1 then 3 else 2) :: bytes32BE x

/-- `PublicKeyFromPrivateKey`: btcec `PrivKeyFromBytes` takes the scalar
value of the 32 bytes and multiplies the base point by it (no validation),
then the compressed serialization is copied out. -/
def PublicKeyFromPrivateKey (privateKey : List Nat) : List Nat :=
  serializeCompressed (smul (fromBytesBE privateKey) Gpt)

/-- btcec `decompressPoint`: candidate square root of `x³ + 7` by raising
to `(P+1)/4`, then the parity flip (`y.Sub(P, y)`) when the requested
parity does not match. -/
def decompressPoint (x : Nat) (ybit : Bool) : Nat :=
  let y0 := powM 257 (x * x * x + 7) ((secpP + 1) / 4) secpP
  if ybit == (y0 % 2 == 1) then y0 else secpP - y0

/-- btcec `ParsePubKey` restricted to 33-byte (compressed) buffers, the
only case reachable from this package: checks the compressed-format magic
byte (low bit = Y parity), decompresses Y, then validates `X < P`,
`Y < P` and the curve equation (`IsOnCurve`).  Any failure is an error in
the Go original, `none` here. -/
def ParsePubKey (buf : List Nat) : Option (Nat × Nat) :=
  if buf.length = 33 then
    let format := buf.headD 0
    let ybit := format % 2 == 1
    if format - format % 2 = 2 then
      let x := fromBytesBE (buf.drop 1)
      let y := decompressPoint x ybit
      if x < secpP then
        if y < secpP then
          if y * y % secpP = (x * x * x + 7) % secpP then some (x, y)
          else none
        else none
      else none
    else none
  else none

/-- The challenge scalar of `ComputeSignature`: big-endian value of
`chainhash.HashB(message ∥ Rx.Bytes())` where `Rx` is the X coordinate of
`k·G` (`curve.ScalarBaseMult(oneTimeSigningKey)`). -/
def sigChallenge (k : Nat) (m : List Nat) : Nat :=
  fromBytesBE (HashB (m ++ natBytesBE (ptX (smul k Gpt))))

/-- The signature scalar `s = (k - e·a) mod N` (big.Int `Sub` then
Euclidean `Mod`). -/
def sigS (a k : Nat) (m : List Nat) : Nat :=
  (((k : Int) - (sigChallenge k m : Int) * (a : Int)) % (secpN : Int)).toNat

/-- `ComputeSignature`: returns the pair (32-byte array, error) exactly as
the Go function does; the first component is the zeroed array on every
error path. -/
def ComputeSignature (privKey oneTimeSigningKey message : List Nat) :
    List Nat × Option GoError :=
  let bigPriv := fromBytesBE privKey
  let bigK := fromBytesBE oneTimeSigningKey
  if bigPriv = 0 then (List.replicate 32 0, some .privScalarZero)
  else if secpN ≤ bigPriv then (List.replicate 32 0, some .privScalarOutOfBounds)
  else if bigK = 0 then (List.replicate 32 0, some .kScalarZero)
  else if secpN ≤ bigK then (List.replicate 32 0, some .kScalarOutOfBounds)
  else
    let e := sigChallenge bigK message
    if secpN ≤ e then (List.replicate 32 0, some .hashTooBig)
    else
      let s := sigS bigPriv bigK message
      if s = 0 then (List.replicate 32 0, some .sigSZero)
      else (goCopy (List.replicate 32 0) ((256 - bitLen s) / 8) (natBytesBE s), none)

/-- `ComputeSignaturePubKey`: parse both points, recompute the challenge
from the parsed `R`'s X coordinate, and return `R + (-(e·A))` serialized;
the returned 33-byte array is zeroed on every error path. -/
def ComputeSignaturePubKey (oraclePubA oraclePubR message : List Nat) :
    List Nat × Option GoError :=
  match ParsePubKey oraclePubA with
  | none => (List.replicate 33 0, some .pubKeyParse)
  | some A =>
    match ParsePubKey oraclePubR with
    | none => (List.replicate 33 0, some .pubKeyParse)
    | some R =>
      let bigE := fromBytesBE (HashB (message ++ natBytesBE R.1))
      if secpN ≤ bigE then (List.replicate 33 0, some .hashTooBig)
      else
        let Ppt := pAdd (ptNeg (smul bigE (some A))) (some R)
        (serializeCompressed Ppt, none)

/-! #### Slice-level model of the two `append(message, …)` sites

`hashInput = append(message, R.X.Bytes()...)` (line 74) and
`e := chainhash.HashB(append(message[:], Rx.Bytes()...))` (line 135)
reuse the caller's backing array when the message slice has spare
capacity.  The definitions below model the effect of each call on the
backing array of the message argument: `arr` is the full backing array
(so the slice has capacity `arr.length`) and `msgLen` is the slice
length.  Go's `append` writes the appended bytes in place starting at
index `msgLen` whenever they fit within the capacity, and allocates a
fresh array (leaving `arr` untouched) otherwise. -/

/-- Effect of `append(slice, xs...)` on the backing array of `slice`. -/
def goAppendBacking (arr : List Nat) (len : Nat) (xs : List Nat) : List Nat :=
  if len + xs.length ≤ arr.length then goCopy arr len xs else arr

/-- Backing array of the `message` argument after `ComputeSignature`
returns (the only write into it is the line-135 `append`, reached once
the four scalar validations pass). -/
def ComputeSignatureMsgBacking (privKey oneTimeSigningKey arr : List Nat)
    (msgLen : Nat) : List Nat :=
  let bigPriv := fromBytesBE privKey
  let bigK := fromBytesBE oneTimeSigningKey
  if bigPriv = 0 then arr
  else if secpN ≤ bigPriv then arr
  else if bigK = 0 then arr
  else if secpN ≤ bigK then arr
  else goAppendBacking arr msgLen (natBytesBE (ptX (smul bigK Gpt)))

/-- Backing array of the `message` argument after `ComputeSignaturePubKey`
returns (the only write into it is the line-74 `append`, reached once both
points parse). -/
def ComputeSignaturePubKeyMsgBacking (oraclePubA oraclePubR arr : List Nat)
    (msgLen : Nat) : List Nat :=
  match ParsePubKey oraclePubA with
  | none => arr
  | some _ =>
    match ParsePubKey oraclePubR with
    | none => arr
    | some R => goAppendBacking arr msgLen (natBytesBE R.1)

/-- `derivePublicKey` as described by the specification (§4.1): fails with
`InvalidScalar` on a scalar that is 0 or ≥ N, otherwise returns the
compressed point.  Stated from the spec's words, for comparison with the
code's `PublicKeyFromPrivateKey`. -/
def derivePublicKeySpec (x : Nat) : Option (List Nat) :=
  if x = 0 ∨ secpN ≤ x then none
  else some (serializeCompressed (smul x Gpt))

end DLCOracle

namespace DLCOracle

theorem bytes32BE_length {n : Nat} (h : n < 2 ^ 256) : (bytes32BE n).length = 32 := by
  rw [bytes32BE, List.length_append, List.length_replicate]
  rcases Nat.eq_zero_or_pos n with h0 | h0
  · subst h0
    rw [natBytesBE, natBytesAux_zero]
    simp
  · have hb := natBytesAux_len_bounds 33 n h0 (lt_of_lt_of_le h (by norm_num))
    have hle : (natBytesAux 33 n).length ≤ 32 := by
      by_contra hc
      push_neg at hc
      have : (256 : Nat) ^ 32 ≤ 256 ^ ((natBytesAux 33 n).length - 1) :=
        Nat.pow_le_pow_right (by norm_num) (by omega)
      have h2 : (2 : Nat) ^ 256 = 256 ^ 32 := by norm_num
      omega
    rw [natBytesBE]
    omega

/-- Square-root correctness for the `(P+1)/4` exponentiation: on a value
that is a square, btcec's candidate root squares back to it. -/
theorem sqrt_cand_sq (y : Fp) : ((y * y) ^ ((secpP + 1) / 4)) ^ 2 = y * y := by
  by_cases hy : y = 0
  · subst hy
    rw [mul_zero, zero_pow (by norm_num [secpP]), zero_pow (by norm_num)]
  · have key : ((y * y) ^ ((secpP + 1) / 4)) ^ 2 = y ^ (secpP + 1) := by
      rw [← pow_two y, ← pow_mul, ← pow_mul]
      congr 1
    rw [key, show secpP + 1 = secpP - 1 + 2 by norm_num [secpP], pow_add,
      ZMod.pow_card_sub_one_eq_one hy, one_mul, pow_two]

/-- btcec `decompressPoint` recovers the Y coordinate of an on-curve point
from its X coordinate and parity bit. -/
theorem decompress_correct {x y : Nat} (hx : x < secpP) (hy : y < secpP)
    (he : y * y % secpP = (x * x * x + 7) % secpP) :
    decompressPoint x (y % 2 == 1) = y := by
  have hy0lt : powM 257 (x * x * x + 7) ((secpP + 1) / 4) secpP < secpP :=
    powM_lt _ _ _ _ (by norm_num [secpP])
  have hcast : ((powM 257 (x * x * x + 7) ((secpP + 1) / 4) secpP : Nat) : Fp)
      = ((x * x * x + 7 : Nat) : Fp) ^ ((secpP + 1) / 4) :=
    powM_cast 257 _ _ (by norm_num [secpP])
  have hsq : ((x * x * x + 7 : Nat) : Fp) = (y : Fp) * y := by
    have hc : ((y * y % secpP : Nat) : Fp) = ((x * x * x + 7) % secpP : Nat) :=
      congrArg _ he
    rw [ZMod.natCast_mod, ZMod.natCast_mod] at hc
    push_cast at hc ⊢
    linear_combination hc.symm
  set y0 := powM 257 (x * x * x + 7) ((secpP + 1) / 4) secpP with hy0def
  have hsq2 : ((y0 : Nat) : Fp) * y0 = (y : Fp) * y := by
    have h1 : (((y0 : Nat) : Fp)) ^ 2 = (((y : Fp) * y) ^ ((secpP + 1) / 4)) ^ 2 := by
      rw [hcast, hsq]
    rw [sqrt_cand_sq] at h1
    rw [← sq]
    exact h1
  have hcases : ((y0 : Nat) : Fp) = (y : Fp) ∨ ((y0 : Nat) : Fp) = -(y : Fp) :=
    mul_self_eq_mul_self_iff.mp hsq2
  by_cases heq : y0 = y
  · rw [decompressPoint]
    simp only [← hy0def, heq]
    rw [if_pos (by simp)]
  · have hneg : ((y0 : Nat) : Fp) = -(y : Fp) := by
      rcases hcases with h | h
      · exact absurd (natCast_fp_inj hy0lt hy h) heq
      · exact h
    have hmod : (y0 + y) % secpP = 0 := by
      have h0 : ((y0 + y : Nat) : Fp) = 0 := by push_cast; rw [hneg]; ring
      rw [ZMod.natCast_zmod_eq_zero_iff_dvd] at h0
      exact Nat.mod_eq_zero_of_dvd h0
    have hy0P : y0 + y = secpP := by
      rcases lt_or_ge (y0 + y) secpP with hlt | hge
      · rw [Nat.mod_eq_of_lt hlt] at hmod
        omega
      · have h2 : y0 + y - secpP < secpP := by omega
        rw [Nat.mod_eq_sub_mod hge, Nat.mod_eq_of_lt h2] at hmod
        omega
    have hParity : secpP % 2 = 1 := by norm_num [secpP]
    have hy0val : y0 = secpP - y := by omega
    have hpar : (y0 % 2 == 1) = !(y % 2 == 1) := by
      have hne : y0 % 2 ≠ y % 2 := by omega
      rcases Nat.mod_two_eq_zero_or_one y with h | h <;>
        rcases Nat.mod_two_eq_zero_or_one y0 with h' | h' <;>
          simp [h, h'] at hne ⊢
    rw [decompressPoint]
    simp only [← hy0def, hpar]
    rw [if_neg (by simp), hy0val]
    omega

end DLCOracle

namespace DLCOracle

theorem ParsePubKey_onCurve {buf : List Nat} {xy : Nat × Nat}
    (h : ParsePubKey buf = some xy) : onCurve (some xy) := by
  obtain ⟨x, y⟩ := xy
  rw [ParsePubKey] at h
  by_cases h33 : buf.length = 33
  · rw [if_pos h33] at h
    by_cases hf : buf.headD 0 - buf.headD 0 % 2 = 2
    · rw [if_pos hf] at h
      by_cases hxP : fromBytesBE (buf.drop 1) < secpP
      · rw [if_pos hxP] at h
        by_cases hyP : decompressPoint (fromBytesBE (buf.drop 1)) (buf.headD 0 % 2 == 1) < secpP
        · rw [if_pos hyP] at h
          by_cases heq : decompressPoint (fromBytesBE (buf.drop 1)) (buf.headD 0 % 2 == 1) *
              decompressPoint (fromBytesBE (buf.drop 1)) (buf.headD 0 % 2 == 1) % secpP =
              (fromBytesBE (buf.drop 1) * fromBytesBE (buf.drop 1) * fromBytesBE (buf.drop 1) + 7)
                % secpP
          · rw [if_pos heq] at h
            injection h with h
            injection h with h1 h2
            subst h1
            subst h2
            exact ⟨hxP, hyP, heq⟩
          · rw [if_neg heq] at h
            cases h
        · rw [if_neg hyP] at h
          cases h
      · rw [if_neg hxP] at h
        cases h
    · rw [if_neg hf] at h
      cases h
  · rw [if_neg h33] at h
    cases h

theorem ParsePubKey_serialize {x y : Nat} (h : onCurve (some (x, y))) :
    ParsePubKey (serializeCompressed (some (x, y))) = some (x, y) := by
  obtain ⟨hx, hy, he⟩ := id h
  have hx256 : x < 2 ^ 256 := lt_trans hx (by norm_num [secpP])
  have hlen : (bytes32BE x).length = 32 := bytes32BE_length hx256
  have hfrom : fromBytesBE (bytes32BE x) = x := fromBytesBE_bytes32BE x hx256
  have hdec := decompress_correct hx hy he
  rcases Nat.mod_two_eq_zero_or_one y with hp | hp
  · have hser : serializeCompressed (some (x, y)) = 2 :: bytes32BE x := by
      rw [serializeCompressed, if_neg (by omega)]
    rw [hp] at hdec
    try simp only [show ((0 : Nat) == 1) = false from rfl, show ((1 : Nat) == 1) = true from rfl]
        at hdec
    rw [hser, ParsePubKey]
    simp only [List.length_cons, hlen, List.headD_cons, List.drop_succ_cons, List.drop_zero,
      hfrom]
    norm_num
    try simp only [show ((0 : Nat) == 1) = false from rfl, show ((1 : Nat) == 1) = true from rfl]
    rw [hdec]
    simp [hx, hy, he]
  · have hser : serializeCompressed (some (x, y)) = 3 :: bytes32BE x := by
      rw [serializeCompressed, if_pos hp]
    rw [hp] at hdec
    try simp only [show ((0 : Nat) == 1) = false from rfl, show ((1 : Nat) == 1) = true from rfl]
        at hdec
    rw [hser, ParsePubKey]
    simp only [List.length_cons, hlen, List.headD_cons, List.drop_succ_cons, List.drop_zero,
      hfrom]
    norm_num
    try simp only [show ((0 : Nat) == 1) = false from rfl, show ((1 : Nat) == 1) = true from rfl]
    rw [hdec]
    simp [hx, hy, he]

end DLCOracle

namespace DLCOracle

theorem sigS_lt (a k : Nat) (m : List Nat) : sigS a k m < secpN := by
  rw [sigS]
  have h1 := Int.emod_nonneg ((k : Int) - (sigChallenge k m : Int) * a)
    (by norm_num [secpN] : (secpN : Int) ≠ 0)
  have h2 := Int.emod_lt_of_pos ((k : Int) - (sigChallenge k m : Int) * a)
    (by norm_num [secpN] : (0 : Int) < (secpN : Int))
  omega

theorem sigS_int (a k : Nat) (m : List Nat) :
    (sigS a k m : Int) = ((k : Int) - (sigChallenge k m : Int) * a) % (secpN : Int) := by
  rw [sigS]
  exact Int.toNat_of_nonneg (Int.emod_nonneg _ (by norm_num [secpN]))

theorem secpN_lt_2pow256 : secpN < 2 ^ 256 := by norm_num [secpN]

/-- Characterization of a successful `ComputeSignature` run. -/
theorem ComputeSignature_success {a k : Nat} {m s : List Nat}
    (ha256 : a < 2 ^ 256) (hk256 : k < 2 ^ 256)
    (h : ComputeSignature (bytes32BE a) (bytes32BE k) m = (s, none)) :
    a ≠ 0 ∧ a < secpN ∧ k ≠ 0 ∧ k < secpN ∧ sigChallenge k m < secpN ∧
      sigS a k m ≠ 0 ∧ s = bytes32BE (sigS a k m) := by
  simp only [ComputeSignature, fromBytesBE_bytes32BE a ha256,
    fromBytesBE_bytes32BE k hk256] at h
  by_cases h1 : a = 0
  · rw [if_pos h1] at h
    exact absurd (congrArg Prod.snd h) (by simp)
  rw [if_neg h1] at h
  by_cases h2 : secpN ≤ a
  · rw [if_pos h2] at h
    exact absurd (congrArg Prod.snd h) (by simp)
  rw [if_neg h2] at h
  by_cases h3 : k = 0
  · rw [if_pos h3] at h
    exact absurd (congrArg Prod.snd h) (by simp)
  rw [if_neg h3] at h
  by_cases h4 : secpN ≤ k
  · rw [if_pos h4] at h
    exact absurd (congrArg Prod.snd h) (by simp)
  rw [if_neg h4] at h
  by_cases h5 : secpN ≤ sigChallenge k m
  · rw [if_pos h5] at h
    exact absurd (congrArg Prod.snd h) (by simp)
  rw [if_neg h5] at h
  by_cases h6 : sigS a k m = 0
  · rw [if_pos h6] at h
    exact absurd (congrArg Prod.snd h) (by simp)
  rw [if_neg h6] at h
  have hs := (congrArg Prod.fst h).symm
  simp only at hs
  have hlt : sigS a k m < 2 ^ 256 := lt_trans (sigS_lt a k m) secpN_lt_2pow256
  rw [hs, goCopy_offset_eq_bytes32BE _ (Nat.pos_of_ne_zero h6) hlt]
  exact ⟨h1, by omega, h3, by omega, by omega, h6, rfl⟩

end DLCOracle

namespace DLCOracle

theorem fromBytesBE_be64 (v : Nat) (h : v < 2 ^ 64) : fromBytesBE (be64 v) = v := by
  simp only [be64, fromBytesBE, List.foldl]
  omega

/-- C5: `GenerateNumericMessage(v)` returns exactly 32 bytes whose first 24
bytes are zero and whose last 8 bytes are the big-endian encoding of `v`;
`GenerateNumericMessage 0` is 32 zero bytes,
`GenerateNumericMessage 18446744073709551615` is 24 zero bytes followed by
eight `0xFF` bytes, and the function is injective on the 64-bit domain. -/
theorem generateNumericMessage_spec :
    (∀ v : Nat, v < 2 ^ 64 →
      GenerateNumericMessage v = List.replicate 24 0 ++ be64 v ∧
      (GenerateNumericMessage v).length = 32 ∧
      (GenerateNumericMessage v).take 24 = List.replicate 24 0 ∧
      (GenerateNumericMessage v).drop 24 = be64 v) ∧
    GenerateNumericMessage 0 = List.replicate 32 0 ∧
    GenerateNumericMessage 18446744073709551615 =
      List.replicate 24 0 ++ List.replicate 8 255 ∧
    (∀ v w : Nat, v < 2 ^ 64 → w < 2 ^ 64 →
      GenerateNumericMessage v = GenerateNumericMessage w → v = w) := by
  have hform : ∀ v : Nat, GenerateNumericMessage v = List.replicate 24 0 ++ be64 v := by
    intro v
    rfl
  refine ⟨fun v _ => ⟨hform v, ?_, ?_, ?_⟩, by decide, by decide, fun v w hv hw h => ?_⟩
  · rw [hform v]
    simp [be64]
  · rw [hform v]
    rfl
  · rw [hform v]
    rfl
  · have h8 := congrArg (fun l : List Nat => l.drop 24) h
    simp only [hform] at h8
    have h9 : ∀ u : Nat, (List.replicate 24 (0 : Nat) ++ be64 u).drop 24 = be64 u :=
      fun u => rfl
    rw [h9, h9] at h8
    have := congrArg fromBytesBE h8
    rwa [fromBytesBE_be64 v hv, fromBytesBE_be64 w hw] at this

/-- C5 witness. -/
theorem generateNumericMessage_spec_witness :
    GenerateNumericMessage 5 = List.replicate 24 0 ++ be64 5 ∧
    (∀ w : Nat, w < 2 ^ 64 → GenerateNumericMessage 5 = GenerateNumericMessage w → 5 = w) :=
  ⟨(generateNumericMessage_spec.1 5 (by norm_num)).1,
    fun w hw h => generateNumericMessage_spec.2.2.2 5 w (by norm_num) hw h⟩

end DLCOracle

namespace DLCOracle

/-- C10: whenever `ComputeSignature` returns an error, the 32-byte value
returned alongside it is the all-zero array — no partial signature bytes or
secret-derived intermediates are exposed on any failure path. -/
theorem computeSignature_error_zero (privKey oneTimeSigningKey message : List Nat)
    (err : GoError)
    (h : (ComputeSignature privKey oneTimeSigningKey message).2 = some err) :
    (ComputeSignature privKey oneTimeSigningKey message).1 = List.replicate 32 0 := by
  simp only [ComputeSignature] at h ⊢
  by_cases h1 : fromBytesBE privKey = 0
  · rw [if_pos h1]
  rw [if_neg h1] at h ⊢
  by_cases h2 : secpN ≤ fromBytesBE privKey
  · rw [if_pos h2]
  rw [if_neg h2] at h ⊢
  by_cases h3 : fromBytesBE oneTimeSigningKey = 0
  · rw [if_pos h3]
  rw [if_neg h3] at h ⊢
  by_cases h4 : secpN ≤ fromBytesBE oneTimeSigningKey
  · rw [if_pos h4]
  rw [if_neg h4] at h ⊢
  by_cases h5 : secpN ≤ sigChallenge (fromBytesBE oneTimeSigningKey) message
  · rw [if_pos h5]
  rw [if_neg h5] at h ⊢
  by_cases h6 : sigS (fromBytesBE privKey) (fromBytesBE oneTimeSigningKey) message = 0
  · rw [if_pos h6]
  rw [if_neg h6] at h
  simp at h

/-- C10 witness: an all-zero private scalar fails, and the returned array
is all zero. -/
theorem computeSignature_error_zero_witness :
    (ComputeSignature (List.replicate 32 0) (List.replicate 32 0) []).2 =
      some GoError.privScalarZero ∧
    (ComputeSignature (List.replicate 32 0) (List.replicate 32 0) []).1 =
      List.replicate 32 0 :=
  ⟨by decide, computeSignature_error_zero _ _ _ GoError.privScalarZero (by decide)⟩

/-- C3: `ComputeSignature` fails exactly when a scalar is invalid, the
challenge is at least N, or the signature scalar is zero — with the error
kind matching the cause (scalar errors first, then the challenge check,
then the zero-signature check). -/
theorem computeSignature_error_iff (a k : Nat) (m : List Nat)
    (ha : a < 2 ^ 256) (hk : k < 2 ^ 256) :
    ((ComputeSignature (bytes32BE a) (bytes32BE k) m).2 ≠ none ↔
      ((a = 0 ∨ secpN ≤ a ∨ k = 0 ∨ secpN ≤ k) ∨
        secpN ≤ sigChallenge k m ∨ sigS a k m = 0)) ∧
    ((a = 0 ∨ secpN ≤ a ∨ k = 0 ∨ secpN ≤ k) →
      ∃ err, (ComputeSignature (bytes32BE a) (bytes32BE k) m).2 = some err ∧
        (err = GoError.privScalarZero ∨ err = GoError.privScalarOutOfBounds ∨
          err = GoError.kScalarZero ∨ err = GoError.kScalarOutOfBounds)) ∧
    (¬(a = 0 ∨ secpN ≤ a ∨ k = 0 ∨ secpN ≤ k) → secpN ≤ sigChallenge k m →
      (ComputeSignature (bytes32BE a) (bytes32BE k) m).2 = some GoError.hashTooBig) ∧
    (¬(a = 0 ∨ secpN ≤ a ∨ k = 0 ∨ secpN ≤ k) → sigChallenge k m < secpN →
      sigS a k m = 0 →
      (ComputeSignature (bytes32BE a) (bytes32BE k) m).2 = some GoError.sigSZero) := by
  simp only [ComputeSignature, fromBytesBE_bytes32BE a ha, fromBytesBE_bytes32BE k hk]
  by_cases h1 : a = 0
  · rw [if_pos h1]
    exact ⟨by simp [h1], fun _ => ⟨_, rfl, by simp⟩, by simp [h1], by simp [h1]⟩
  rw [if_neg h1]
  by_cases h2 : secpN ≤ a
  · rw [if_pos h2]
    exact ⟨by simp [h2], fun _ => ⟨_, rfl, by simp⟩, by simp [h2], by simp [h2]⟩
  rw [if_neg h2]
  by_cases h3 : k = 0
  · rw [if_pos h3]
    exact ⟨by simp [h3], fun _ => ⟨_, rfl, by simp⟩, by simp [h3], by simp [h3]⟩
  rw [if_neg h3]
  by_cases h4 : secpN ≤ k
  · rw [if_pos h4]
    exact ⟨by simp [h4], fun _ => ⟨_, rfl, by simp⟩, by simp [h4], by simp [h4]⟩
  rw [if_neg h4]
  by_cases h5 : secpN ≤ sigChallenge k m
  · rw [if_pos h5]
    refine ⟨by simp [h5], ?_, fun _ _ => rfl, by omega⟩
    intro hsc
    exact absurd hsc (by tauto)
  rw [if_neg h5]
  by_cases h6 : sigS a k m = 0
  · rw [if_pos h6]
    refine ⟨by simp [h6], ?_, by omega, fun _ _ _ => rfl⟩
    intro hsc
    exact absurd hsc (by tauto)
  rw [if_neg h6]
  refine ⟨by simp [h1, h2, h3, h4, h5, h6], ?_, by omega, by tauto⟩
  intro hsc
  exact absurd hsc (by tauto)

/-- C3 witness. -/
theorem computeSignature_error_iff_witness :
    ((ComputeSignature (bytes32BE 0) (bytes32BE 1) []).2 ≠ none ↔
      ((0 = 0 ∨ secpN ≤ 0 ∨ 1 = 0 ∨ secpN ≤ 1) ∨
        secpN ≤ sigChallenge 1 [] ∨ sigS 0 1 [] = 0)) :=
  (computeSignature_error_iff 0 1 [] (by norm_num) (by norm_num)).1

end DLCOracle

namespace DLCOracle

/-- C2: a successful `ComputeSignature(a, k, m)` returns the 32-byte
big-endian zero-left-padded encoding of `s = (k − e·a) mod N`, where
`e = H(m ∥ Rx)` read big-endian and `Rx` is the X coordinate of `k·G`
(see `sigS` and `sigChallenge`, which spell out those expressions). -/
theorem computeSignature_value (a k : Nat) (m : List Nat)
    (ha0 : 0 < a) (haN : a < secpN) (hk0 : 0 < k) (hkN : k < secpN) (s : List Nat)
    (h : ComputeSignature (bytes32BE a) (bytes32BE k) m = (s, none)) :
    s = bytes32BE (sigS a k m) ∧
    (sigS a k m : Int) = ((k : Int) - (sigChallenge k m : Int) * (a : Int)) % (secpN : Int) ∧
    sigChallenge k m = fromBytesBE (HashB (m ++ natBytesBE (ptX (smul k Gpt)))) ∧
    s.length = 32 := by
  have ha256 : a < 2 ^ 256 := lt_trans haN secpN_lt_2pow256
  have hk256 : k < 2 ^ 256 := lt_trans hkN secpN_lt_2pow256
  obtain ⟨-, -, -, -, -, -, hs⟩ := ComputeSignature_success ha256 hk256 h
  refine ⟨hs, sigS_int a k m, rfl, ?_⟩
  rw [hs]
  exact bytes32BE_length (lt_trans (sigS_lt a k m) secpN_lt_2pow256)

unseal smulGo in
/-- C2 witness. -/
theorem computeSignature_value_witness :
    ComputeSignature (bytes32BE 1) (bytes32BE 2) [] =
      ([254, 202, 37, 208, 117, 48, 132, 97, 207, 111, 108, 107, 205, 27, 137, 121,
        207, 38, 78, 67, 35, 39, 45, 54, 114, 131, 112, 140, 241, 33, 20, 158], none) ∧
    [254, 202, 37, 208, 117, 48, 132, 97, 207, 111, 108, 107, 205, 27, 137, 121,
      207, 38, 78, 67, 35, 39, 45, 54, 114, 131, 112, 140, 241, 33, 20, 158] =
        bytes32BE (sigS 1 2 []) :=
  ⟨by decide,
    (computeSignature_value 1 2 [] (by norm_num) (by norm_num [secpN]) (by norm_num)
      (by norm_num [secpN]) _ (by decide)).1⟩

unseal smulGo in
/-- C4 counterexample: the claim says `PublicKeyFromPrivateKey` fails with
`InvalidScalar` on a zero or out-of-range scalar; in fact the function has
no failure path at all: on the all-zero scalar (which `derivePublicKeySpec`,
written from the spec's words, rejects) it successfully returns the 33-byte
serialization of the point at infinity. -/
theorem publicKeyFromPrivateKey_no_failure :
    derivePublicKeySpec 0 = none ∧
    PublicKeyFromPrivateKey (List.replicate 32 0) = 2 :: List.replicate 32 0 ∧
    (PublicKeyFromPrivateKey (List.replicate 32 0)).length = 33 := by
  refine ⟨rfl, by decide, by decide⟩

/-- C4 amended: `PublicKeyFromPrivateKey` never fails; for a scalar in
`(0, N)` it deterministically returns the 33-byte compressed encoding of
`scalar·G` (a finite point); out-of-range scalars are silently accepted and
give the encoding of `(scalar mod N)·G`. -/
theorem publicKeyFromPrivateKey_amended (x : Nat) (h0 : 0 < x) (hN : x < secpN) :
    (∃ px py, smul x Gpt = some (px, py) ∧
      PublicKeyFromPrivateKey (bytes32BE x) =
        (if py % 2 = 1 then 3 else 2) :: bytes32BE px) ∧
    (PublicKeyFromPrivateKey (bytes32BE x)).length = 33 ∧
    PublicKeyFromPrivateKey (bytes32BE x) = serializeCompressed (smul x Gpt) := by
  have hx256 : x < 2 ^ 256 := lt_trans hN secpN_lt_2pow256
  have hpk : PublicKeyFromPrivateKey (bytes32BE x) = serializeCompressed (smul x Gpt) := by
    rw [PublicKeyFromPrivateKey, fromBytesBE_bytes32BE x hx256]
  have hne := smul_Gpt_ne_none h0 hN
  obtain ⟨hon, -⟩ := smul_lift x Gpt onCurve_Gpt (lt_trans hN (by norm_num [secpN]))
  obtain ⟨p, hsm⟩ : ∃ p, smul x Gpt = some p := by
    rcases h' : smul x Gpt with - | p
    · exact absurd h' hne
    · exact ⟨p, rfl⟩
  obtain ⟨px, py⟩ := p
  rw [hsm] at hon
  obtain ⟨hpx, -, -⟩ := id hon
  have hser : serializeCompressed (smul x Gpt) =
      (if py % 2 = 1 then 3 else 2) :: bytes32BE px := by
    rw [hsm, serializeCompressed]
  refine ⟨⟨px, py, hsm, by rw [hpk, hser]⟩, ?_, hpk⟩
  rw [hpk, hser]
  simp [bytes32BE_length (lt_trans hpx (by norm_num [secpP]))]

/-- C4 amended witness. -/
theorem publicKeyFromPrivateKey_amended_witness :
    (PublicKeyFromPrivateKey (bytes32BE 1)).length = 33 :=
  (publicKeyFromPrivateKey_amended 1 (by norm_num) (by norm_num [secpN])).2.1

/-- C8: `PublicKeyFromPrivateKey` silently reduces its input modulo N: the
output is the compressed serialization of `(x mod N)·G`, so two 32-byte
inputs congruent modulo N collide. -/
theorem publicKeyFromPrivateKey_mod (x y : Nat) (hx : x < 2 ^ 256) (hy : y < 2 ^ 256)
    (hxy : x % secpN = y % secpN) :
    PublicKeyFromPrivateKey (bytes32BE x) =
      serializeCompressed (smul (x % secpN) Gpt) ∧
    PublicKeyFromPrivateKey (bytes32BE x) = PublicKeyFromPrivateKey (bytes32BE y) := by
  have hx257 : x < 2 ^ 257 := lt_trans hx (by norm_num)
  have hy257 : y < 2 ^ 257 := lt_trans hy (by norm_num)
  constructor
  · rw [PublicKeyFromPrivateKey, fromBytesBE_bytes32BE x hx, smul_Gpt_mod x hx257]
  · rw [PublicKeyFromPrivateKey, PublicKeyFromPrivateKey, fromBytesBE_bytes32BE x hx,
      fromBytesBE_bytes32BE y hy, smul_Gpt_mod x hx257, smul_Gpt_mod y hy257, hxy]

/-- C8 witness: the scalars 1 and N+1 are congruent mod N and collide. -/
theorem publicKeyFromPrivateKey_mod_witness :
    PublicKeyFromPrivateKey (bytes32BE 1) = PublicKeyFromPrivateKey (bytes32BE (secpN + 1)) :=
  (publicKeyFromPrivateKey_mod 1 (secpN + 1) (by norm_num) (by norm_num [secpN])
    (by norm_num [secpN])).2

end DLCOracle

namespace DLCOracle

/-- C6: `ComputeSignaturePubKey` fails (with the propagated parse error and
a zeroed return array) whenever either input buffer does not parse as a
compressed point; in particular every 33-byte buffer with prefix byte
`0x04` is rejected by the parser. -/
theorem computeSignaturePubKey_parse_errors :
    (∀ bufA bufR m, ParsePubKey bufA = none ∨ ParsePubKey bufR = none →
      ComputeSignaturePubKey bufA bufR m =
        (List.replicate 33 0, some GoError.pubKeyParse)) ∧
    (∀ buf : List Nat, buf.length = 33 → buf.headD 0 = 4 → ParsePubKey buf = none) := by
  constructor
  · intro bufA bufR m h
    rw [ComputeSignaturePubKey]
    rcases hA : ParsePubKey bufA with - | A
    · rfl
    · rcases h with h | h
      · exact absurd hA (by rw [h]; exact fun hc => Option.noConfusion hc)
      · rw [h]
  · intro buf h33 h4
    rw [ParsePubKey, if_pos h33, h4]
    norm_num

/-- C6 witness: a 33-byte buffer with prefix `0x04` makes the call fail. -/
theorem computeSignaturePubKey_parse_errors_witness :
    ComputeSignaturePubKey (4 :: List.replicate 32 0) (4 :: List.replicate 32 0) [] =
      (List.replicate 33 0, some GoError.pubKeyParse) :=
  computeSignaturePubKey_parse_errors.1 _ _ _
    (Or.inl (computeSignaturePubKey_parse_errors.2 _ (by decide) (by decide)))

theorem goAppendBacking_frame (arr : List Nat) (len : Nat) (xs : List Nat)
    (h : len ≤ arr.length) :
    (goAppendBacking arr len xs).take len = arr.take len ∧
    (goAppendBacking arr len xs).length = arr.length := by
  rw [goAppendBacking]
  split
  · constructor
    · rw [goCopy]
      have hlen : (arr.take len).length = len := by
        rw [List.length_take]
        omega
      rw [List.take_append_of_le_length (by rw [List.length_append, hlen]; omega)]
      rw [List.take_append_of_le_length (le_of_eq hlen.symm), List.take_take]
      simp
    · rw [goCopy]
      simp only [List.length_append, List.length_take, List.length_drop]
      omega
  · exact ⟨rfl, rfl⟩

unseal smulGo in
/-- C7 counterexample: when the caller's message slice has spare capacity
(backing array of 33 zero bytes, slice length 1), a successful
`ComputeSignature` run overwrites the backing array beyond the slice
length with the nonce X-coordinate bytes, so the backing storage is not
left unchanged as claimed. -/
theorem computeSignature_mutates_backing :
    ComputeSignatureMsgBacking (bytes32BE 1) (bytes32BE 1) (List.replicate 33 0) 1 ≠
      List.replicate 33 0 := by decide

/-- C7 amended: both functions leave the message contents within its
length (and the backing array's length) unchanged on every path, but the
backing bytes beyond the slice length may be overwritten when capacity
allows. -/
theorem message_backing_amended (privKey oneTimeSigningKey arr bufA bufR : List Nat)
    (msgLen : Nat) (h : msgLen ≤ arr.length) :
    (ComputeSignatureMsgBacking privKey oneTimeSigningKey arr msgLen).take msgLen =
      arr.take msgLen ∧
    (ComputeSignatureMsgBacking privKey oneTimeSigningKey arr msgLen).length = arr.length ∧
    (ComputeSignaturePubKeyMsgBacking bufA bufR arr msgLen).take msgLen = arr.take msgLen ∧
    (ComputeSignaturePubKeyMsgBacking bufA bufR arr msgLen).length = arr.length := by
  have hsig : (ComputeSignatureMsgBacking privKey oneTimeSigningKey arr msgLen).take msgLen =
      arr.take msgLen ∧
      (ComputeSignatureMsgBacking privKey oneTimeSigningKey arr msgLen).length = arr.length := by
    rw [ComputeSignatureMsgBacking]
    split
    · exact ⟨rfl, rfl⟩
    split
    · exact ⟨rfl, rfl⟩
    split
    · exact ⟨rfl, rfl⟩
    split
    · exact ⟨rfl, rfl⟩
    exact goAppendBacking_frame arr msgLen _ h
  have hpub : (ComputeSignaturePubKeyMsgBacking bufA bufR arr msgLen).take msgLen =
      arr.take msgLen ∧
      (ComputeSignaturePubKeyMsgBacking bufA bufR arr msgLen).length = arr.length := by
    rw [ComputeSignaturePubKeyMsgBacking]
    rcases ParsePubKey bufA with - | A
    · exact ⟨rfl, rfl⟩
    rcases ParsePubKey bufR with - | R
    · exact ⟨rfl, rfl⟩
    exact goAppendBacking_frame arr msgLen _ h
  exact ⟨hsig.1, hsig.2, hpub.1, hpub.2⟩

/-- C7 amended witness. -/
theorem message_backing_amended_witness :
    (ComputeSignatureMsgBacking (bytes32BE 1) (bytes32BE 1) (List.replicate 33 0) 1).take 1 =
      (List.replicate 33 (0 : Nat)).take 1 :=
  (message_backing_amended (bytes32BE 1) (bytes32BE 1) (List.replicate 33 0)
    [] [] 1 (by decide)).1

end DLCOracle

namespace DLCOracle

/-- C9: `ComputeSignaturePubKey` does not reject the degenerate case where
the parsed points satisfy `R = e·A`: when both points parse and the
challenge is below N, that case succeeds and returns the 33-byte
serialization of the degenerate result (btcec's affine (0,0) for the point
at infinity, serialized as `0x02` followed by 32 zero bytes), not an
error. -/
theorem computeSignaturePubKey_degenerate (bufA bufR m : List Nat) (A R : Nat × Nat)
    (hA : ParsePubKey bufA = some A) (hR : ParsePubKey bufR = some R)
    (he : fromBytesBE (HashB (m ++ natBytesBE R.1)) < secpN)
    (hdeg : smul (fromBytesBE (HashB (m ++ natBytesBE R.1))) (some A) = some R) :
    ComputeSignaturePubKey bufA bufR m = (2 :: List.replicate 32 0, none) := by
  have honR := ParsePubKey_onCurve hR
  obtain ⟨rx, ry⟩ := R
  obtain ⟨hrx, hry, -⟩ := id honR
  simp only at he hdeg
  rw [ComputeSignaturePubKey]
  simp only [hA, hR]
  rw [if_neg (not_le.mpr he), hdeg, ptNeg_some]
  have hPpos : 0 < secpP := by norm_num [secpP]
  have hcond : ((secpP - ry % secpP) % secpP + ry) % secpP = 0 := by
    rw [Nat.mod_eq_of_lt hry]
    rcases Nat.eq_zero_or_pos ry with h0 | h0
    · subst h0
      simp [Nat.mod_self]
    · have h1 : secpP - ry < secpP := by omega
      rw [Nat.mod_eq_of_lt h1]
      have h2 : secpP - ry + ry = secpP := by omega
      rw [h2, Nat.mod_self]
  have hpadd : pAdd (some (rx, (secpP - ry % secpP) % secpP)) (some (rx, ry)) = none := by
    simp [pAdd, hcond]
  rw [hpadd]
  rfl

/-- C1: the equivalence law.  For valid scalars `a`, `k` and any message,
when `ComputeSignature(a, k, m)` succeeds with signature bytes `s`, the
anticipated point computed from public data alone,
`ComputeSignaturePubKey(pub(a), pub(k), m)`, also succeeds and returns
exactly `PublicKeyFromPrivateKey(s)`, i.e. the anticipated point equals
`s·G`. -/
theorem equivalence_law (a k : Nat) (m : List Nat)
    (ha0 : 0 < a) (haN : a < secpN) (hk0 : 0 < k) (hkN : k < secpN) (s : List Nat)
    (hsig : ComputeSignature (bytes32BE a) (bytes32BE k) m = (s, none)) :
    ComputeSignaturePubKey (PublicKeyFromPrivateKey (bytes32BE a))
      (PublicKeyFromPrivateKey (bytes32BE k)) m = (PublicKeyFromPrivateKey s, none) := by
  have ha256 : a < 2 ^ 256 := lt_trans haN secpN_lt_2pow256
  have hk256 : k < 2 ^ 256 := lt_trans hkN secpN_lt_2pow256
  obtain ⟨-, -, -, -, heN, hs0, hsval⟩ := ComputeSignature_success ha256 hk256 hsig
  obtain ⟨honA, hliftA⟩ := smul_lift a Gpt onCurve_Gpt (lt_trans haN (by norm_num [secpN]))
  obtain ⟨honR, hliftR⟩ := smul_lift k Gpt onCurve_Gpt (lt_trans hkN (by norm_num [secpN]))
  obtain ⟨pA, hsmA⟩ : ∃ p, smul a Gpt = some p := by
    rcases h' : smul a Gpt with - | p
    · exact absurd h' (smul_Gpt_ne_none ha0 haN)
    · exact ⟨p, rfl⟩
  obtain ⟨pR, hsmR⟩ : ∃ p, smul k Gpt = some p := by
    rcases h' : smul k Gpt with - | p
    · exact absurd h' (smul_Gpt_ne_none hk0 hkN)
    · exact ⟨p, rfl⟩
  obtain ⟨ax, ay⟩ := pA
  obtain ⟨rx, ry⟩ := pR
  have honA2 : onCurve (some (ax, ay)) := by rw [← hsmA]; exact honA
  have honR2 : onCurve (some (rx, ry)) := by rw [← hsmR]; exact honR
  have hpkA : PublicKeyFromPrivateKey (bytes32BE a) = serializeCompressed (some (ax, ay)) := by
    rw [PublicKeyFromPrivateKey, fromBytesBE_bytes32BE a ha256, hsmA]
  have hpkR : PublicKeyFromPrivateKey (bytes32BE k) = serializeCompressed (some (rx, ry)) := by
    rw [PublicKeyFromPrivateKey, fromBytesBE_bytes32BE k hk256, hsmR]
  have hparseA : ParsePubKey (PublicKeyFromPrivateKey (bytes32BE a)) = some (ax, ay) := by
    rw [hpkA]
    exact ParsePubKey_serialize honA2
  have hparseR : ParsePubKey (PublicKeyFromPrivateKey (bytes32BE k)) = some (rx, ry) := by
    rw [hpkR]
    exact ParsePubKey_serialize honR2
  have hex : fromBytesBE (HashB (m ++ natBytesBE rx)) = sigChallenge k m := by
    simp only [sigChallenge, hsmR, ptX]
  have hs256 : sigS a k m < 2 ^ 256 := lt_trans (sigS_lt a k m) secpN_lt_2pow256
  have hpkS : PublicKeyFromPrivateKey s = serializeCompressed (smul (sigS a k m) Gpt) := by
    rw [hsval, PublicKeyFromPrivateKey, fromBytesBE_bytes32BE _ hs256]
  rw [ComputeSignaturePubKey]
  simp only [hparseA, hparseR]
  rw [hex, if_neg (not_le.mpr heN), hpkS]
  obtain ⟨honEA, hliftEA⟩ := smul_lift (sigChallenge k m) (some (ax, ay)) honA2
    (lt_trans heN (by norm_num [secpN]))
  obtain ⟨honNeg, hliftNeg⟩ := liftPt_ptNeg honEA
  obtain ⟨honSum, hliftSum⟩ := liftPt_pAdd honNeg honR2
  obtain ⟨honS, hliftS⟩ := smul_lift (sigS a k m) Gpt onCurve_Gpt
    (lt_trans (sigS_lt a k m) (by norm_num [secpN]))
  have hPA : liftPt (some (ax, ay)) honA2 = a • GP := by
    rw [← liftPt_congr hsmA honA honA2, hliftA, lift_Gpt_eq_GP]
  have hPR : liftPt (some (rx, ry)) honR2 = k • GP := by
    rw [← liftPt_congr hsmR honR honR2, hliftR, lift_Gpt_eq_GP]
  have hPt : pAdd (ptNeg (smul (sigChallenge k m) (some (ax, ay)))) (some (rx, ry)) =
      smul (sigS a k m) Gpt := by
    apply liftPt_inj honSum honS
    rw [hliftSum, hliftNeg, hliftEA, hliftS, hPA, hPR, lift_Gpt_eq_GP]
    have hNz : (secpN : Int) • GP = 0 := by
      rw [natCast_zsmul, nsmul_secpN_GP]
    have main : ((sigS a k m : Nat) : Int) • GP =
        -((sigChallenge k m : Int) • ((a : Int) • GP)) + (k : Int) • GP := by
      rw [smul_smul, ← neg_smul, ← add_smul]
      have hq := Int.ediv_add_emod ((k : Int) - (sigChallenge k m : Int) * a) (secpN : Int)
      have h2 : (-((sigChallenge k m : Int) * a) + k : Int) =
          ((sigS a k m : Nat) : Int) +
            (secpN : Int) * (((k : Int) - (sigChallenge k m : Int) * a) / (secpN : Int)) := by
        rw [sigS_int]
        linarith
      rw [h2, add_smul, mul_comm, mul_smul, hNz, zsmul_zero, add_zero]
    rw [← natCast_zsmul GP a, ← natCast_zsmul ((a : Int) • GP) (sigChallenge k m),
      ← natCast_zsmul GP k, ← natCast_zsmul GP (sigS a k m)]
    exact main.symm
  rw [hPt]

end DLCOracle

namespace DLCOracle

unseal smulGo in
/-- C1 witness: concrete run with `a = 1`, `k = 2`, empty message. -/
theorem equivalence_law_witness :
    ComputeSignaturePubKey (PublicKeyFromPrivateKey (bytes32BE 1))
      (PublicKeyFromPrivateKey (bytes32BE 2)) [] =
      (PublicKeyFromPrivateKey
        [254, 202, 37, 208, 117, 48, 132, 97, 207, 111, 108, 107, 205, 27, 137, 121,
         207, 38, 78, 67, 35, 39, 45, 54, 114, 131, 112, 140, 241, 33, 20, 158], none) :=
  equivalence_law 1 2 [] (by norm_num) (by norm_num [secpN]) (by norm_num)
    (by norm_num [secpN]) _ (by decide)

unseal smulGo in
/-- C9 witness: a concrete degenerate instance `R = e·A` (with
`A = e⁻¹·G`, `R = G`, empty message) succeeds and returns the
serialization of the point at infinity. -/
theorem computeSignaturePubKey_degenerate_witness :
    ComputeSignaturePubKey
      [3, 118, 206, 36, 115, 71, 164, 67, 235, 116, 29, 204, 218, 240, 79, 92, 121,
       108, 137, 36, 19, 187, 187, 220, 200, 116, 167, 77, 17, 126, 220, 195, 87]
      [2, 121, 190, 102, 126, 249, 220, 187, 172, 85, 160, 98, 149, 206, 135, 11, 7,
       2, 155, 252, 219, 45, 206, 40, 217, 89, 242, 129, 91, 22, 248, 23, 152]
      [] = (2 :: List.replicate 32 0, none) :=
  computeSignaturePubKey_degenerate _ _ _
    (53737138198976879720699103114467576886843913573194136755837488407527714243415,
     35886019309291911718361129473978131856884465404398858975101907186269285431501)
    (secpGx, secpGy)
    (by decide) (by decide) (by decide) (by decide)

end DLCOracle
